import Mathlib

/-!
Verification of the Obliterator secure-wipe engine against its design notes.

The definitions below are a shallow embedding of the Python sources:
`wiping-engine.py` (sanitization engine), `device-detection.py` (inventory),
and `oblitrator_gui.py` (certificate issuance).  External effects (device
reads/writes, subprocess results, `os.urandom`, the crypto library) are
passed in explicitly as oracle parameters; everything the code computes from
them is modelled concretely.
-/

set_option maxRecDepth 4000

namespace Obliterator

/-- Bytes are modelled as natural numbers (values 0..255 in the source). -/
abbrev Byte := Nat

/-- The `SanitizationMethod` enum of wiping-engine.py (NIST SP 800-88r2). -/
inductive SanitizationMethod
  | clear
  | purge
  | destroy
deriving DecidableEq

/-- The `WipeStatus` enum of wiping-engine.py. -/
inductive WipeStatus
  | ready
  | running
  | paused
  | completed
  | failed
  | cancelled
deriving DecidableEq

/-- The `WipePass` dataclass: one wipe pass configuration. -/
structure WipePass where
  pass_id : Nat
  name : String
  pattern_type : String
  pattern_data : Option (List Byte)
  verify : Bool
deriving DecidableEq

/-- The CLEAR pass list of the `wipe_patterns` dict (lines 83-85). -/
def clearPasses : List WipePass :=
  [⟨1, "Single Random Pass", "random", none, true⟩]

/-- The PURGE pass list of the `wipe_patterns` dict (lines 86-92). -/
def purgePasses : List WipePass :=
  [⟨1, "Random Pass 1", "random", none, true⟩,
   ⟨2, "Complement Pass", "complement", none, true⟩,
   ⟨3, "Random Pass 2", "random", none, true⟩,
   ⟨4, "Pattern Pass (0x55)", "pattern", some [0x55], true⟩,
   ⟨5, "Final Zero Pass", "zeros", none, true⟩]

/-- The `wipe_patterns` dict built in `WipingEngine.__init__` (lines 82-93).
The dict has entries only for CLEAR and PURGE; DESTROY maps to no entry
(`none`, a KeyError if looked up). -/
def wipe_patterns : SanitizationMethod → Option (List WipePass)
  | .clear => some clearPasses
  | .purge => some purgePasses
  | .destroy => none

/-- `WipingEngine._generate_complement_pattern` (lines 696-702): alternating
0xAA / 0x55 bytes. -/
def generate_complement_pattern (size : Nat) : List Byte :=
  (List.range size).map (fun i => if i % 2 = 0 then 0xAA else 0x55)

/-- Python `bytes * n` repetition: the whole byte string repeated n times. -/
def bytesRepeat (data : List Byte) (n : Nat) : List Byte :=
  (List.replicate n data).flatten

/-- Pattern selection at the top of each pass in `_multipass_wipe`
(lines 418-432).  `urandom k` is the oracle giving the result of the k-th
`os.urandom(4096)` call of the run (`_generate_random_pattern`, line 692);
the returned counter is the updated call count.  `none` models the failure
paths: an unknown pattern type returns False, and `pattern` with no data
would raise. -/
def passPattern (urandom : Nat → List Byte) (rngCalls : Nat) (p : WipePass) :
    Option (List Byte × Nat) :=
  if p.pattern_type = "random" then some (urandom rngCalls, rngCalls + 1)
  else if p.pattern_type = "zeros" then some (List.replicate 4096 0x00, rngCalls)
  else if p.pattern_type = "ones" then some (List.replicate 4096 0xFF, rngCalls)
  else if p.pattern_type = "pattern" then
    match p.pattern_data with
    | some d => some (bytesRepeat d (4096 / d.length), rngCalls)
    | none => none
  else if p.pattern_type = "complement" then
    some (generate_complement_pattern 4096, rngCalls)
  else none

/-- Result of the write loop of `_write_pattern` (lines 449-512):
final `bytes_written`, next stop-flag check index, the chunks actually
written (paired with the check index at which each write happened), and the
returned boolean `bytes_written >= device_size`. -/
structure WriteResult where
  bytes_written : Nat
  tEnd : Nat
  chunks : List (Nat × List Byte)
  success : Bool
deriving DecidableEq

/-- The buffer-write loop of `_write_pattern`.  The source checks the
`stop_requested` flag once per iteration, between buffer writes; `stop t`
is the value the flag shows at the t-th check of the run.  Each iteration
writes `chunk = pattern[:min(len(pattern), remaining)]` and advances
`bytes_written`.  The fuel argument only bounds the recursion: with a
non-empty pattern every iteration writes at least one byte, so fuel
`deviceSize` is never exhausted before the loop's own exit condition (an
empty pattern would loop forever in the source, but every pattern the
engine builds has 4096 bytes). -/
def writeLoopAux (stop : Nat → Bool) (pattern : List Byte) (deviceSize : Nat) :
    Nat → Nat → Nat → Nat × Nat × List (Nat × List Byte)
  | 0, t, bw => (bw, t, [])
  | fuel + 1, t, bw =>
    if bw < deviceSize && !(stop t) then
      let chunk_size := min pattern.length (deviceSize - bw)
      let chunk := pattern.take chunk_size
      let r := writeLoopAux stop pattern deviceSize fuel (t + 1) (bw + chunk_size)
      (r.1, r.2.1, (t, chunk) :: r.2.2)
    else (bw, t, [])

/-- `WipingEngine._write_pattern`: runs the write loop from `bytes_written = 0`
and returns `bytes_written >= device_size` (line 507). -/
def write_pattern (stop : Nat → Bool) (pattern : List Byte) (deviceSize : Nat)
    (t : Nat) : WriteResult :=
  let r := writeLoopAux stop pattern deviceSize deviceSize t 0
  { bytes_written := r.1, tEnd := r.2.1, chunks := r.2.2,
    success := decide (deviceSize ≤ r.1) }

/-- The sampling loop of `_verify_pattern` (lines 514-546).  `readAt o`
models the device read of `len(expected)` bytes at offset `o` during this
verify call; reads are an oracle, since the physical medium need not return
what was written.  `n` counts the samples still to do (the source iterates
i = 0..9 with `sample_count = 10`), `t` is the next stop-check index.
Returns the boolean result and the next check index. -/
def verifyLoopAux (stop : Nat → Bool) (readAt : Nat → List Byte)
    (expected : List Byte) (deviceSize : Nat) :
    Nat → Nat → Bool × Nat
  | 0, t => (true, t)
  | n + 1, t =>
    if stop t then (false, t + 1)
    else
      let i := 10 - (n + 1)
      let sample_size := min deviceSize (100 * 1024 * 1024)
      let offset :=
        if sample_size < deviceSize then ((deviceSize - expected.length) / 10) * i
        else 0
      if readAt offset = expected then
        verifyLoopAux stop readAt expected deviceSize n (t + 1)
      else (false, t + 1)

/-- Instrumented record of one pass that `_multipass_wipe` began:
the progress fields the source assigns for it plus the write trace. -/
structure PassRecord where
  pass_id : Nat
  name : String
  pattern_type : String
  pattern_data : Option (List Byte)
  verify : Bool
  rngBefore : Nat
  pattern : List Byte
  startT : Nat
  startBytesWritten : Nat
  endBytesWritten : Nat
  chunks : List (Nat × List Byte)
  writeOk : Bool
  verifyResult : Option Bool
  statusAfter : String
deriving DecidableEq, Inhabited

/-- Result of `_multipass_wipe` (lines 403-447): the returned boolean, the
final `progress.verification_status`, the per-pass trace, the next
stop-check index and the number of `os.urandom` calls made. -/
structure MultiResult where
  success : Bool
  verification_status : String
  trace : List PassRecord
  tEnd : Nat
  rngCalls : Nat
deriving DecidableEq

/-- `WipingEngine._multipass_wipe`.  For each pass: check `stop_requested`
(line 408, one check index); reset `progress.bytes_written` to 0 (line 414);
build the pattern; run the write loop; on a verify-enabled pass run the
sampling verify and set `verification_status` to "failed" or "passed"
(lines 438-445); then continue with the remaining passes.  A stop request,
an unknown pattern type, or `_write_pattern` returning False each make the
function return False. -/
def multipassAux (stop : Nat → Bool) (urandom : Nat → List Byte)
    (readback : Nat → Nat → List Byte) (deviceSize : Nat) :
    List WipePass → Nat → Nat → String → MultiResult
  | [], t, rng, vs =>
    { success := true, verification_status := vs, trace := [], tEnd := t,
      rngCalls := rng }
  | p :: rest, t, rng, vs =>
    if stop t then
      { success := false, verification_status := vs, trace := [], tEnd := t + 1,
        rngCalls := rng }
    else
      match passPattern urandom rng p with
      | none =>
        { success := false, verification_status := vs, trace := [],
          tEnd := t + 1, rngCalls := rng }
      | some (pattern, rng') =>
        let w := write_pattern stop pattern deviceSize (t + 1)
        let pr : PassRecord :=
          { pass_id := p.pass_id, name := p.name, pattern_type := p.pattern_type,
            pattern_data := p.pattern_data,
            verify := p.verify, rngBefore := rng, pattern := pattern,
            startT := t, startBytesWritten := 0,
            endBytesWritten := w.bytes_written, chunks := w.chunks,
            writeOk := w.success, verifyResult := none, statusAfter := vs }
        if !w.success then
          { success := false, verification_status := vs, trace := [pr],
            tEnd := w.tEnd, rngCalls := rng' }
        else if p.verify then
          let v := verifyLoopAux stop (readback p.pass_id) pattern deviceSize 10 w.tEnd
          let vs' := if v.1 then "passed" else "failed"
          let m := multipassAux stop urandom readback deviceSize rest v.2 rng' vs'
          { m with trace := { pr with verifyResult := some v.1, statusAfter := vs' } :: m.trace }
        else
          let m := multipassAux stop urandom readback deviceSize rest w.tEnd rng' vs
          { m with trace := pr :: m.trace }

/-- The fields of the `get_device_info` result (lines 125-150) that
`wipe_device` consults: each is the outcome of a probe of the device or of
an external tool. -/
structure DeviceInfo where
  size_bytes : Nat
  supports_ata_secure_erase : Bool
  supports_nvme_secure_erase : Bool
  has_hpa : Bool
  has_dco : Bool
  is_mounted : Bool
deriving DecidableEq

/-- Environment of one `wipe_device` call: the results of all OS and
external-tool interactions the call can make, passed in explicitly. -/
structure WipeEnv where
  /-- `os.path.exists(device_path)` (line 298). -/
  deviceExists : Bool
  /-- `os.access(device_path, os.R_OK | os.W_OK)` (line 301). -/
  accessOk : Bool
  /-- the `get_device_info` result (line 305). -/
  info : DeviceInfo
  /-- the `prepare_device` result (line 317). -/
  prepareOk : Bool
  /-- whether `hdparm -I` output contains "frozen" (line 560). -/
  ataFrozen : Bool
  /-- whether `hdparm --security-set-pass` returns 0 (line 570). -/
  ataSetPassOk : Bool
  /-- whether `hdparm --security-erase` completes with return code 0
  (line 596); `false` also covers the timeout path. -/
  ataEraseOk : Bool
  /-- the result of `_nvme_secure_erase` (lines 610-668), abstracted to its
  returned boolean; no claim depends on its internals. -/
  nvmeOk : Bool
  /-- the k-th `os.urandom(4096)` result of the run. -/
  urandom : Nat → List Byte
  /-- verify-time device reads, keyed by pass id and offset. -/
  readback : Nat → Nat → List Byte
  /-- the `stop_requested` flag as observed at the t-th check of the run. -/
  stop : Nat → Bool

/-- How one `wipe_device` call ends.  The source either returns a boolean or
raises; each raise site is a distinct exception at a distinct program point,
all of them before the `try:` block at line 338, so none of them is coerced
into the generic `return False` of the except handler. -/
inductive WipeOutcome
  /-- the function returned `b`. -/
  | ret (b : Bool)
  /-- `ValueError: device does not exist` (line 299). -/
  | errNotExists
  /-- `PermissionError` (line 302). -/
  | errPerm
  /-- `ValueError: device has mounted filesystems` (line 314) — the
  DeviceBusy refusal. -/
  | errBusy
  /-- `RuntimeError: failed to prepare device` (line 318). -/
  | errPrepare
  /-- KeyError on `wipe_patterns[method]` (line 321; unreachable, DESTROY
  returned at line 293). -/
  | errNoPasses
deriving DecidableEq

/-- Observable result of a `wipe_device` call: outcome, whether
`prepare_device` ran, which erase path ran, the software pass trace, the
final `verification_status`, the final engine `status` and the final
stop-check index. -/
structure WipeRun where
  outcome : WipeOutcome
  prepared : Bool
  usedAta : Bool
  usedNvme : Bool
  trace : List PassRecord
  verification_status : String
  status : WipeStatus
  rngCallsUsed : Nat
  tEnd : Nat
deriving DecidableEq

/-- Control flow of `_ata_secure_erase` (lines 548-608): frozen security, a
failed `security-set-pass`, and a failed or timed-out erase command each end
in `return False`.  Nothing in this function falls back to software passes. -/
def ata_secure_erase (env : WipeEnv) : Bool :=
  if env.ataFrozen then false
  else if !env.ataSetPassOk then false
  else env.ataEraseOk

/-- Tail of `wipe_device` (lines 352-364): `if success and not
self.stop_requested` the status becomes COMPLETED and True is returned,
otherwise False is returned with status CANCELLED when stop was requested
and FAILED when it was not. -/
def wipeFinish (env : WipeEnv) (usedAta usedNvme : Bool) (trace : List PassRecord)
    (vs : String) (rng : Nat) (ok : Bool) (t : Nat) : WipeRun :=
  if ok && !(env.stop t) then
    { outcome := .ret true, prepared := true, usedAta := usedAta,
      usedNvme := usedNvme, trace := trace, verification_status := vs,
      status := .completed, rngCallsUsed := rng, tEnd := t }
  else
    { outcome := .ret false, prepared := true, usedAta := usedAta,
      usedNvme := usedNvme, trace := trace, verification_status := vs,
      status := (if env.stop t then .cancelled else .failed),
      rngCallsUsed := rng, tEnd := t }

/-- `WipingEngine.wipe_device` (lines 279-376).  DESTROY returns True with no
action; a missing or inaccessible device raises; dry-run returns True after
printing the plan; a mounted device raises the DeviceBusy ValueError before
`prepare_device` and before any write; then preparation runs, and the erase
path is chosen: ATA secure erase when PURGE and supported, else NVMe secure
erase when PURGE and supported, else the software multi-pass wipe.
`confirm_token` is accepted but never consulted anywhere in the body. -/
def wipe_device (env : WipeEnv) (method : SanitizationMethod)
    (confirm_token : String) (dry_run : Bool) : WipeRun :=
  if method = .destroy then
    { outcome := .ret true, prepared := false, usedAta := false,
      usedNvme := false, trace := [], verification_status := "pending",
      status := .ready, rngCallsUsed := 0, tEnd := 0 }
  else if !env.deviceExists then
    { outcome := .errNotExists, prepared := false, usedAta := false,
      usedNvme := false, trace := [], verification_status := "pending",
      status := .ready, rngCallsUsed := 0, tEnd := 0 }
  else if !env.accessOk then
    { outcome := .errPerm, prepared := false, usedAta := false,
      usedNvme := false, trace := [], verification_status := "pending",
      status := .ready, rngCallsUsed := 0, tEnd := 0 }
  else if dry_run then
    { outcome := .ret true, prepared := false, usedAta := false,
      usedNvme := false, trace := [], verification_status := "pending",
      status := .ready, rngCallsUsed := 0, tEnd := 0 }
  else if env.info.is_mounted then
    { outcome := .errBusy, prepared := false, usedAta := false,
      usedNvme := false, trace := [], verification_status := "pending",
      status := .ready, rngCallsUsed := 0, tEnd := 0 }
  else if !env.prepareOk then
    { outcome := .errPrepare, prepared := true, usedAta := false,
      usedNvme := false, trace := [], verification_status := "pending",
      status := .ready, rngCallsUsed := 0, tEnd := 0 }
  else
    match wipe_patterns method with
    | none =>
      { outcome := .errNoPasses, prepared := true, usedAta := false,
        usedNvme := false, trace := [], verification_status := "pending",
        status := .ready, rngCallsUsed := 0, tEnd := 0 }
    | some passes =>
      if method = .purge && env.info.supports_ata_secure_erase then
        wipeFinish env true false [] "pending" 0 (ata_secure_erase env) 0
      else if method = .purge && env.info.supports_nvme_secure_erase then
        wipeFinish env false true [] "pending" 0 env.nvmeOk 0
      else
        let m := multipassAux env.stop env.urandom env.readback
          env.info.size_bytes passes 0 0 "pending"
        wipeFinish env false false m.trace m.verification_status m.rngCalls
          m.success m.tEnd

/-! Device inventory (`device-detection.py`). -/

/-- Digit-and-dot numeric literals as accepted by Python `float()` on strings
matched by the `[0-9.]+` charset of the `_parse_size` regex: at least one
digit and at most one dot.  The value is returned as a pair (n, scale)
denoting n / 10^scale, an exact reading of the decimal literal.  (Python
goes through an IEEE double here; the two semantics agree on every value of
interest in this development.) -/
def parseDecimal (cs : List Char) : Option (Nat × Nat) :=
  if 1 < cs.count '.' then none
  else if !cs.any Char.isDigit then none
  else
    let intPart := cs.takeWhile (fun c => c ≠ '.')
    let fracPart := (cs.dropWhile (fun c => c ≠ '.')).drop 1
    let digitsToNat := fun (ds : List Char) =>
      ds.foldl (fun a c => a * 10 + (c.toNat - '0'.toNat)) 0
    some (digitsToNat (intPart ++ fracPart), fracPart.length)

/-- The `multipliers` dict of `_parse_size` (lines 502-509) together with the
`multipliers.get(unit, 1)` lookup: unknown units (including the empty one)
fall back to 1. -/
def sizeMultiplier (unit : String) : Nat :=
  if unit = "B" then 1
  else if unit = "K" || unit = "KB" || unit = "KIB" then 1024
  else if unit = "M" || unit = "MB" || unit = "MIB" then 1024 ^ 2
  else if unit = "G" || unit = "GB" || unit = "GIB" then 1024 ^ 3
  else if unit = "T" || unit = "TB" || unit = "TIB" then 1024 ^ 4
  else if unit = "P" || unit = "PB" || unit = "PIB" then 1024 ^ 5
  else 1

/-- Python `str.strip()` on a character list: whitespace dropped from both
ends. -/
def trimChars (l : List Char) : List Char :=
  ((l.dropWhile Char.isWhitespace).reverse.dropWhile
    Char.isWhitespace).reverse

/-- `DeviceDetector._parse_size` (lines 494-522).  Empty or "0" input returns
0; otherwise the string is uppercased and stripped (modelled on the
character list, which agrees with Python on ASCII input), `re.match` takes
the leading `[0-9.]+` run (no match gives 0), skips whitespace, takes the
leading `[A-Z]*` run as the unit (trailing text is ignored, as `re.match`
only anchors at the start), and returns `int(float(number) * multiplier)`
— truncation toward zero of a nonnegative value, i.e. (n * mult) / 10^scale
in natural division.  A `float()` failure returns 0. -/
def parse_size (size_str : String) : Nat :=
  if size_str = "" || size_str = "0" then 0
  else
    let cs := trimChars (size_str.toList.map Char.toUpper)
    let numChars := cs.takeWhile (fun c => c.isDigit || c = '.')
    if numChars = [] then 0
    else
      let rest := (cs.drop numChars.length).dropWhile Char.isWhitespace
      let unitChars := rest.takeWhile (fun c => 'A' ≤ c && c ≤ 'Z')
      match parseDecimal numChars with
      | none => 0
      | some (n, scale) => n * sizeMultiplier (String.mk unitChars) / 10 ^ scale

/-- Whether `needle` starts `hay` (character lists). -/
def listStartsWith : List Char → List Char → Bool
  | [], _ => true
  | _ :: _, [] => false
  | a :: as, b :: bs => a = b && listStartsWith as bs

/-- Substring search on character lists (Python `needle in hay`). -/
def subAux (needle : List Char) : List Char → Bool
  | [] => listStartsWith needle []
  | c :: rest => listStartsWith needle (c :: rest) || subAux needle rest

/-- Python `needle in hay` for strings. -/
def containsSub (hay needle : String) : Bool :=
  subAux needle.toList hay.toList

/-- The fields of a detected-device dict (built in `_parse_lsblk_device` /
`_get_device_details`) that the `detect_all_devices` filtering stage reads
or writes; the many enrichment fields it does not touch are omitted. -/
structure DeviceRec where
  name : String
  size_bytes : Nat
  mount_points : List String
  wipe_status : String
deriving DecidableEq, Inhabited

/-- The name markers skipped by `detect_all_devices` (line 561): loopback,
RAM disks, device-mapper nodes, optical drives. -/
def skip_markers : List String := ["loop", "ram", "dm-", "sr"]

/-- Filtering stage of `detect_all_devices` (lines 553-568): drop devices
under 1 MiB, drop names containing a skip marker, and mark any device with a
mount point "/" as `Protected (Root FS)`; every other device is kept as is. -/
def filter_devices : List DeviceRec → List DeviceRec
  | [] => []
  | d :: rest =>
    if d.size_bytes < 1024 * 1024 then filter_devices rest
    else if skip_markers.any (fun m => containsSub d.name m) then filter_devices rest
    else
      let d' := if d.mount_points.any (fun m => m = "/")
        then { d with wipe_status := "Protected (Root FS)" } else d
      d' :: filter_devices rest

/-- `DeviceDetector.detect_all_devices` (lines 542-571), with the enumeration
step (lsblk / proc, both subprocess driven) abstracted into the input list. -/
def detect_all_devices (detected : List DeviceRec) : List DeviceRec :=
  filter_devices detected

/-! Certificate issuance (`oblitrator_gui.py`, `generate_certificate`). -/

/-- The constant APP_NAME of oblitrator_gui.py (line 20). -/
def APP_NAME : String := "Obliterator"

/-- The constant APP_VERSION of oblitrator_gui.py (line 21). -/
def APP_VERSION : String := "5.0-final"

/-- The form values read from `self.cert_data` in `generate_certificate`
via `dict.get` (missing keys give None, serialized as JSON null). -/
structure CertForm where
  sanitization_method : Option String
  sanitization_technique : Option String
  manufacturer : Option String
  model : Option String
  serial_number : Option String
  property_id : Option String
  media_type : Option String
  media_source : Option String
  destination : Option String
  verification_method : Option String
  operator_name : Option String
  operator_title : Option String
  operator_location : Option String
  operator_contact : Option String
  operator_sig : Option String
deriving DecidableEq

/-- The `cert_payload` dict built in `generate_certificate` (lines 430-460),
flattened into a record; both timestamps are the same `isoformat()` string. -/
structure CertPayload where
  nist_reference : String
  tool_name : String
  tool_version : String
  event_timestamp : String
  event_status : String
  event_method : Option String
  event_technique : Option String
  media_manufacturer : Option String
  media_model : Option String
  media_serial_number : Option String
  media_property_id : Option String
  media_type : Option String
  media_source : Option String
  media_destination : Option String
  verification_method : Option String
  verification_timestamp : String
  verification_status : String
  operator_name : Option String
  operator_title : Option String
  operator_location : Option String
  operator_contact : Option String
  operator_sig : Option String
deriving DecidableEq

/-- Builds `cert_payload` from the form and the UTC timestamp string. -/
def build_cert_payload (form : CertForm) (timestamp : String) : CertPayload :=
  { nist_reference := "NIST SP 800-88r2 IPD July 2025",
    tool_name := APP_NAME, tool_version := APP_VERSION,
    event_timestamp := timestamp, event_status := "Success",
    event_method := form.sanitization_method,
    event_technique := form.sanitization_technique,
    media_manufacturer := form.manufacturer,
    media_model := form.model,
    media_serial_number := form.serial_number,
    media_property_id := form.property_id,
    media_type := form.media_type,
    media_source := form.media_source,
    media_destination := form.destination,
    verification_method := form.verification_method,
    verification_timestamp := timestamp,
    verification_status := "Passed",
    operator_name := form.operator_name,
    operator_title := form.operator_title,
    operator_location := form.operator_location,
    operator_contact := form.operator_contact,
    operator_sig := form.operator_sig }

/-- Lowercase hexadecimal digit, as Python's \uXXXX escapes use. -/
def hexDigit (n : Nat) : Char :=
  if n < 10 then Char.ofNat ('0'.toNat + n)
  else Char.ofNat ('a'.toNat + (n - 10))

/-- Four-digit hexadecimal rendering of a code unit below 0x10000. -/
def hex4 (n : Nat) : String :=
  String.mk [hexDigit (n / 4096 % 16), hexDigit (n / 256 % 16),
    hexDigit (n / 16 % 16), hexDigit (n % 16)]

/-- One character as `json.dumps` (default `ensure_ascii=True`) renders it
inside a JSON string: quote and backslash escaped, the named control
escapes, \u00XX for other control characters, the character itself for
printable ASCII, and \uXXXX (a surrogate pair above 0xFFFF) otherwise. -/
def jsonEscapeChar (c : Char) : String :=
  if c = '"' then "\\\""
  else if c = '\\' then "\\\\"
  else if c = '\n' then "\\n"
  else if c = '\t' then "\\t"
  else if c = '\r' then "\\r"
  else if c.toNat = 8 then "\\b"
  else if c.toNat = 12 then "\\f"
  else if c.toNat < 0x20 then "\\u" ++ hex4 c.toNat
  else if c.toNat < 0x7F then String.mk [c]
  else if c.toNat < 0x10000 then "\\u" ++ hex4 c.toNat
  else
    let v := c.toNat - 0x10000
    "\\u" ++ hex4 (0xD800 + v / 1024) ++ "\\u" ++ hex4 (0xDC00 + v % 1024)

/-- JSON string literal for `s`. -/
def jstr (s : String) : String :=
  "\"" ++ String.join (s.toList.map jsonEscapeChar) ++ "\""

/-- JSON rendering of an optional string: Python None serializes to null. -/
def jopt : Option String → String
  | none => "null"
  | some s => jstr s

/-- One `"key": value` member. -/
def jfield (k v : String) : String := jstr k ++ ": " ++ v

/-- A JSON object from already-rendered members, with the separators
`json.dumps` uses by default. -/
def jobj (fields : List String) : String :=
  "\x7b" ++ String.intercalate ", " fields ++ "\x7d"

/-- `json.dumps(cert_payload, sort_keys=True)`: the canonical serialization
that is signed (line 466).  Keys appear in the sorted order the Python call
produces for this fixed dict shape, at every nesting level. -/
def dumps_payload (p : CertPayload) : String :=
  jobj [
    jfield "media_information" (jobj [
      jfield "destination" (jopt p.media_destination),
      jfield "manufacturer" (jopt p.media_manufacturer),
      jfield "media_source" (jopt p.media_source),
      jfield "media_type" (jopt p.media_type),
      jfield "model" (jopt p.media_model),
      jfield "property_id" (jopt p.media_property_id),
      jfield "serial_number" (jopt p.media_serial_number)]),
    jfield "nist_reference" (jstr p.nist_reference),
    jfield "operator" (jobj [
      jfield "contact" (jopt p.operator_contact),
      jfield "location" (jopt p.operator_location),
      jfield "name" (jopt p.operator_name),
      jfield "signature" (jopt p.operator_sig),
      jfield "title" (jopt p.operator_title)]),
    jfield "sanitization_event" (jobj [
      jfield "method" (jopt p.event_method),
      jfield "status" (jstr p.event_status),
      jfield "technique" (jopt p.event_technique),
      jfield "timestamp" (jstr p.event_timestamp)]),
    jfield "tool_information" (jobj [
      jfield "name" (jstr p.tool_name),
      jfield "version" (jstr p.tool_version)]),
    jfield "verification" (jobj [
      jfield "method" (jopt p.verification_method),
      jfield "status" (jstr p.verification_status),
      jfield "timestamp" (jstr p.verification_timestamp)])]

/-- A value of the top-level certificate container dict. -/
inductive ContainerVal
  | payload (p : CertPayload)
  | str (s : String)
deriving DecidableEq

/-- The `signed_cert_container` dict the dead code at lines 469-472 would
build: exactly the two keys `certificate_payload` and `signature`, in this
order.  This construction is never reached in the source: evaluating the
dict literal raises NameError at `base64.b64encode` first (see
`generate_certificate`). -/
def signed_cert_container (p : CertPayload) (sigB64 : String) :
    List (String × ContainerVal) :=
  [("certificate_payload", .payload p), ("signature", .str sigB64)]

/-- The external crypto calls `generate_certificate` makes, as oracles:
`keyLoadOk` is whether `load_pem_private_key` succeeds (lines 463-464),
and `rsaSignPkcs1v15Sha256 m` is `private_key.sign(m.encode(),
padding.PKCS1v15(), hashes.SHA256())` (line 467, an RSA signature over
the SHA-256 digest of the canonical serialization).  The module has no
base64 binding: `import base64` is absent, so there is no encoding
oracle to model. -/
structure SignEnv where
  keyLoadOk : Bool
  rsaSignPkcs1v15Sha256 : String → List Byte

/-- `WipeProgressFrame.generate_certificate` (lines 423-486), certificate
construction only (the filename/write-to-disk tail is dead code).  The
payload is built (lines 430-460); if the private key fails to load the
except path (line 485) emits nothing; otherwise the sorted-keys JSON
serialization is produced and signed (lines 466-467) — and then the
container literal at line 471 evaluates `base64.b64encode`, a name the
module never imports, so a NameError is raised inside the try block and
the handler at line 485 swallows it.  The function therefore emits no
certificate on ANY input; the signature bytes are computed and discarded.
The container the dead code would have built is `signed_cert_container`. -/
def generate_certificate (env : SignEnv) (form : CertForm)
    (timestamp : String) : Option (List (String × ContainerVal)) :=
  if !env.keyLoadOk then none
  else
    let payload := build_cert_payload form timestamp
    let _sig := env.rsaSignPkcs1v15Sha256 (dumps_payload payload)
    none

/-! The command-line wrapper `main` of wiping-engine.py. -/

/-- `os.path.basename` for the device paths `main` handles: everything
after the last slash. -/
def basename (p : String) : String :=
  String.mk (p.toList.foldl (fun acc c => if c = '/' then [] else acc ++ [c]) [])

/-- The expected confirmation token of `main` (line 763):
"OBLITERATE-" plus the uppercased device basename. -/
def expected_token (device : String) : String :=
  "OBLITERATE-" ++ String.mk ((basename device).toList.map Char.toUpper)

/-- The --confirm gate in `main` (lines 762-766): the run proceeds only when
the token matches or --dry-run is set; otherwise `main` exits before
constructing the engine.  This check lives only in the CLI wrapper; the
engine's `wipe_device` never reads its `confirm_token` argument. -/
def main_token_gate (device confirm : String) (dry_run : Bool) : Bool :=
  (confirm = expected_token device) || dry_run

/-! Concrete instances used to exercise the model on closed inputs. -/

/-- A 1-byte unmounted device with no hardware-erase support. -/
def infoDemo : DeviceInfo :=
  { size_bytes := 1, supports_ata_secure_erase := false,
    supports_nvme_secure_erase := false, has_hpa := false,
    has_dco := false, is_mounted := false }

/-- A benign environment: everything succeeds, stop never requested,
verify reads return nothing (mismatching every pattern). -/
def envPurgeDemo : WipeEnv :=
  { deviceExists := true, accessOk := true, info := infoDemo,
    prepareOk := true, ataFrozen := false, ataSetPassOk := true,
    ataEraseOk := true, nvmeOk := true,
    urandom := fun k => List.replicate 4096 (k + 1),
    readback := fun _ _ => [],
    stop := fun _ => false }

/-- The benign environment with the target mounted. -/
def envMountedDemo : WipeEnv :=
  { envPurgeDemo with info := { infoDemo with is_mounted := true } }

/-- ATA secure erase supported but the security state is frozen. -/
def envFrozenDemo : WipeEnv :=
  { envPurgeDemo with
    info := { infoDemo with supports_ata_secure_erase := true },
    ataFrozen := true }

/-- An 8192-byte device (two 4096-byte blocks per pass) with a stop request
arriving at check index 1, i.e. during the first pass. -/
def envCancelDemo : WipeEnv :=
  { envPurgeDemo with
    info := { infoDemo with size_bytes := 8192 },
    stop := fun t => decide (1 ≤ t) }

/-- Verify reads mismatch on passes 1-4 and match the zeros pattern on
pass 5 only. -/
def envVerifyDemo : WipeEnv :=
  { envPurgeDemo with
    readback := fun pid _ => if pid = 5 then List.replicate 4096 0x00 else [] }

/-- The benign environment on an 8192-byte device: each pass writes two
4096-byte blocks. -/
def envReuseDemo : WipeEnv :=
  { envPurgeDemo with info := { infoDemo with size_bytes := 8192 } }

/-- A single verified zeros pass, run directly through the multipass
engine on a 1-byte device with mismatching verify reads. -/
def mpDemo : MultiResult :=
  multipassAux (fun _ => false) (fun _ => List.replicate 4096 7)
    (fun _ _ => []) 1 [⟨1, "Final Zero Pass", "zeros", none, true⟩] 0 0 "pending"

/-- A filled-in certificate form. -/
def certFormDemo : CertForm :=
  { sanitization_method := some "purge", sanitization_technique := some "5-pass",
    manufacturer := some "Acme", model := some "X1",
    serial_number := some "S123", property_id := none,
    media_type := some "SATA HDD", media_source := none, destination := none,
    verification_method := some "sampling", operator_name := some "Op",
    operator_title := none, operator_location := none,
    operator_contact := none, operator_sig := some "Op" }

/-- A signing environment whose key loads and whose signing call returns
fixed bytes. -/
def signEnvDemo : SignEnv :=
  { keyLoadOk := true, rsaSignPkcs1v15Sha256 := fun _ => [1, 2, 3] }

/-- A timestamp string as `datetime.isoformat()` produces. -/
def tsDemo : String := "2026-01-01T00:00:00+00:00"

/-- A detected 1-GiB disk mounted at the filesystem root. -/
def devListDemo : List DeviceRec :=
  [{ name := "sda", size_bytes := 1073741824, mount_points := ["/"],
     wipe_status := "Ready" }]

/-- The record `detect_all_devices` returns for `devListDemo`. -/
def devProtectedDemo : DeviceRec :=
  { name := "sda", size_bytes := 1073741824, mount_points := ["/"],
    wipe_status := "Protected (Root FS)" }

/-! Helper lemmas about the write loop. -/

/-- The write loop never writes past the device: `bytes_written` stays at
most `deviceSize`. -/
theorem writeLoopAux_bytes_le (stop : Nat → Bool) (pattern : List Byte)
    (deviceSize : Nat) :
    ∀ (fuel t bw : Nat), bw ≤ deviceSize →
      (writeLoopAux stop pattern deviceSize fuel t bw).1 ≤ deviceSize := by
  intro fuel
  induction fuel with
  | zero => intro t bw h; simpa [writeLoopAux] using h
  | succ n ih =>
    intro t bw h
    simp only [writeLoopAux]
    split
    next hcond =>
      have hmin : min pattern.length (deviceSize - bw) ≤ deviceSize - bw :=
        Nat.min_le_right _ _
      exact ih (t + 1) _ (by omega)
    next => exact h

/-- `_write_pattern` returns True exactly when it wrote the whole device;
in that case `bytes_written` equals the device size. -/
theorem write_pattern_success_bytes (stop : Nat → Bool) (pattern : List Byte)
    (deviceSize t : Nat)
    (h : (write_pattern stop pattern deviceSize t).success = true) :
    (write_pattern stop pattern deviceSize t).bytes_written = deviceSize := by
  have hle := writeLoopAux_bytes_le stop pattern deviceSize deviceSize t 0
    (Nat.zero_le _)
  simp only [write_pattern, decide_eq_true_eq] at h ⊢
  omega

/-- Every chunk the write loop emits was written at a check index where the
stop flag read false, and is an initial segment of the single pass
pattern. -/
theorem writeLoopAux_chunks_facts (stop : Nat → Bool) (pattern : List Byte)
    (deviceSize : Nat) :
    ∀ (fuel t bw : Nat) (c : Nat × List Byte),
      c ∈ (writeLoopAux stop pattern deviceSize fuel t bw).2.2 →
      stop c.1 = false ∧ ∃ k, c.2 = pattern.take k := by
  intro fuel
  induction fuel with
  | zero => intro t bw c hc; simp [writeLoopAux] at hc
  | succ n ih =>
    intro t bw c hc
    simp only [writeLoopAux] at hc
    split at hc
    next hcond =>
      simp only [Bool.and_eq_true, decide_eq_true_eq, Bool.not_eq_true'] at hcond
      simp only [List.mem_cons] at hc
      rcases hc with rfl | hc
      · exact ⟨hcond.2, _, rfl⟩
      · exact ih _ _ _ hc
    next => simp at hc

/-- A monotone stop flag that is set at `s` is still set at any later
check index. -/
theorem stop_mono_le (stop : Nat → Bool)
    (hmono : ∀ u, stop u = true → stop (u + 1) = true)
    {s t : Nat} (hst : s ≤ t) (hs : stop s = true) : stop t = true := by
  obtain ⟨k, rfl⟩ := Nat.exists_eq_add_of_le hst
  clear hst
  induction k with
  | zero => exact hs
  | succ n ihn => exact hmono _ ihn

/-- What buffer `passPattern` hands the write loop, by pattern type. -/
theorem passPattern_shape (urandom : Nat → List Byte) (rng : Nat) (p : WipePass)
    (pat : List Byte) (rng' : Nat)
    (h : passPattern urandom rng p = some (pat, rng')) :
    (p.pattern_type = "random" → pat = urandom rng ∧ rng' = rng + 1) ∧
    (p.pattern_type = "zeros" → pat = List.replicate 4096 0x00) ∧
    (p.pattern_type = "ones" → pat = List.replicate 4096 0xFF) ∧
    (p.pattern_type = "complement" → pat = generate_complement_pattern 4096) ∧
    (∀ d, p.pattern_type = "pattern" → p.pattern_data = some d →
      pat = bytesRepeat d (4096 / d.length)) := by
  refine ⟨?_, ?_, ?_, ?_, ?_⟩
  · intro ht
    simp only [passPattern, ht, String.reduceEq, reduceIte, Option.some.injEq, Prod.mk.injEq] at h
    exact ⟨h.1.symm, h.2.symm⟩
  · intro ht
    simp only [passPattern, ht, String.reduceEq, reduceIte, Option.some.injEq, Prod.mk.injEq] at h
    exact h.1.symm
  · intro ht
    simp only [passPattern, ht, String.reduceEq, reduceIte, Option.some.injEq, Prod.mk.injEq] at h
    exact h.1.symm
  · intro ht
    simp only [passPattern, ht, String.reduceEq, reduceIte, Option.some.injEq, Prod.mk.injEq] at h
    exact h.1.symm
  · intro d ht hd
    simp only [passPattern, ht, hd, String.reduceEq, reduceIte, Option.some.injEq, Prod.mk.injEq] at h
    exact h.1.symm

/-- Facts holding of every pass record `_multipass_wipe` produces: the pass
began at a check where the stop flag read false; `bytes_written` was reset
to 0 at its start; every chunk was written at an unstopped check and is an
initial segment of the pass's single pattern buffer; a failed verify sets
the status to "failed" and a successful one to "passed"; and the pattern
buffer is determined by the pass's pattern type (one fresh urandom draw for
a random pass, constants otherwise). -/
theorem multipassAux_trace_facts (stop : Nat → Bool) (urandom : Nat → List Byte)
    (readback : Nat → Nat → List Byte) (deviceSize : Nat) :
    ∀ (passes : List WipePass) (t rng : Nat) (vs : String) (r : PassRecord),
      r ∈ (multipassAux stop urandom readback deviceSize passes t rng vs).trace →
      stop r.startT = false ∧
      r.startBytesWritten = 0 ∧
      (∀ c ∈ r.chunks, stop c.1 = false ∧ ∃ k, c.2 = r.pattern.take k) ∧
      (r.verifyResult = some false → r.statusAfter = "failed") ∧
      (r.verifyResult = some true → r.statusAfter = "passed") ∧
      (r.pattern_type = "random" → r.pattern = urandom r.rngBefore) ∧
      (r.pattern_type = "zeros" → r.pattern = List.replicate 4096 0x00) ∧
      (r.pattern_type = "ones" → r.pattern = List.replicate 4096 0xFF) ∧
      (r.pattern_type = "complement" →
        r.pattern = generate_complement_pattern 4096) ∧
      (∀ d, r.pattern_type = "pattern" → r.pattern_data = some d →
        r.pattern = bytesRepeat d (4096 / d.length)) := by
  intro passes
  induction passes with
  | nil =>
    intro t rng vs r hr
    simp [multipassAux] at hr
  | cons p rest ih =>
    intro t rng vs r hr
    cases hstop : stop t with
    | true => simp [multipassAux, hstop] at hr
    | false =>
      cases hpp : passPattern urandom rng p with
      | none => simp [multipassAux, hstop, hpp] at hr
      | some pr =>
        obtain ⟨pattern, rng'⟩ := pr
        have hshape := passPattern_shape urandom rng p pattern rng' hpp
        have hchunks := fun c hc =>
          writeLoopAux_chunks_facts stop pattern deviceSize deviceSize (t + 1) 0 c hc
        simp only [multipassAux, hstop, Bool.false_eq_true, if_false, hpp] at hr
        split at hr
        · -- write failed: the trace is the single aborted record
          simp only [List.mem_singleton] at hr
          subst hr
          refine ⟨hstop, rfl, hchunks, by simp, by simp, ?_, ?_, ?_, ?_, ?_⟩
          · exact fun h => (hshape.1 h).1
          · exact hshape.2.1
          · exact hshape.2.2.1
          · exact hshape.2.2.2.1
          · exact hshape.2.2.2.2
        · split at hr
          · -- verify-enabled pass
            simp only [List.mem_cons] at hr
            rcases hr with rfl | hr
            · refine ⟨hstop, rfl, hchunks, ?_, ?_, ?_, ?_, ?_, ?_, ?_⟩
              · intro h
                simp only [Option.some.injEq] at h
                simp [← h]
              · intro h
                simp only [Option.some.injEq] at h
                simp [← h]
              · exact fun h => (hshape.1 h).1
              · exact hshape.2.1
              · exact hshape.2.2.1
              · exact hshape.2.2.2.1
              · exact hshape.2.2.2.2
            · exact ih _ _ _ r hr
          · -- verify disabled
            simp only [List.mem_cons] at hr
            rcases hr with rfl | hr
            · refine ⟨hstop, rfl, hchunks, by simp, by simp, ?_, ?_, ?_, ?_, ?_⟩
              · exact fun h => (hshape.1 h).1
              · exact hshape.2.1
              · exact hshape.2.2.1
              · exact hshape.2.2.2.1
              · exact hshape.2.2.2.2
            · exact ih _ _ _ r hr

/-- When `_multipass_wipe` returns True, every configured pass ran, in
order, and each produced a record carrying the pass's id, name, pattern
type and verify flag, with `bytes_written` reset to 0 at its start and
equal to the device size at its end. -/
theorem multipassAux_success_forall₂ (stop : Nat → Bool)
    (urandom : Nat → List Byte) (readback : Nat → Nat → List Byte)
    (deviceSize : Nat) :
    ∀ (passes : List WipePass) (t rng : Nat) (vs : String),
      (multipassAux stop urandom readback deviceSize passes t rng vs).success
        = true →
      List.Forall₂ (fun (p : WipePass) (r : PassRecord) =>
          r.pass_id = p.pass_id ∧ r.name = p.name ∧
          r.pattern_type = p.pattern_type ∧ r.verify = p.verify ∧
          r.startBytesWritten = 0 ∧ r.endBytesWritten = deviceSize)
        passes
        (multipassAux stop urandom readback deviceSize passes t rng vs).trace := by
  intro passes
  induction passes with
  | nil =>
    intro t rng vs _
    simp [multipassAux]
  | cons p rest ih =>
    intro t rng vs hs
    cases hstop : stop t with
    | true => simp [multipassAux, hstop] at hs
    | false =>
      cases hpp : passPattern urandom rng p with
      | none => simp [multipassAux, hstop, hpp] at hs
      | some pr =>
        obtain ⟨pattern, rng'⟩ := pr
        simp only [multipassAux, hstop, Bool.false_eq_true, if_false, hpp] at hs ⊢
        split at hs
        · simp at hs
        next hwrite =>
          have hw : (write_pattern stop pattern deviceSize (t + 1)).success
              = true := by
            revert hwrite
            cases (write_pattern stop pattern deviceSize (t + 1)).success <;> simp
          have hbytes := write_pattern_success_bytes stop pattern deviceSize
            (t + 1) hw
          rw [if_neg (by simp [hw])]
          split at hs
          · rw [if_pos (by assumption)]
            simp only at hs ⊢
            exact List.Forall₂.cons ⟨rfl, rfl, rfl, rfl, rfl, hbytes⟩
              (ih _ _ _ hs)
          · rw [if_neg (by assumption)]
            simp only at hs ⊢
            exact List.Forall₂.cons ⟨rfl, rfl, rfl, rfl, rfl, hbytes⟩
              (ih _ _ _ hs)

/-- The status tail of `wipe_device` reports back the check index it was
given. -/
theorem wipeFinish_tEnd (env : WipeEnv) (a b : Bool) (tr : List PassRecord)
    (vs : String) (rng : Nat) (ok : Bool) (t : Nat) :
    (wipeFinish env a b tr vs rng ok t).tEnd = t := by
  unfold wipeFinish
  split <;> rfl

/-- The status tail of `wipe_device` leaves the pass trace unchanged. -/
theorem wipeFinish_trace (env : WipeEnv) (a b : Bool) (tr : List PassRecord)
    (vs : String) (rng : Nat) (ok : Bool) (t : Nat) :
    (wipeFinish env a b tr vs rng ok t).trace = tr := by
  unfold wipeFinish
  split <;> rfl

/-- When the stop flag reads true at the final check, `wipe_device` returns
False with terminal status CANCELLED, whatever the erase path reported. -/
theorem wipeFinish_stopped (env : WipeEnv) (a b : Bool) (tr : List PassRecord)
    (vs : String) (rng : Nat) (ok : Bool) (t : Nat)
    (h : env.stop t = true) :
    (wipeFinish env a b tr vs rng ok t).outcome = .ret false ∧
    (wipeFinish env a b tr vs rng ok t).status = .cancelled := by
  simp [wipeFinish, h]

/-- With the stop flag never set, the write loop's final `bytes_written`
does not depend on the check index it starts from. -/
theorem writeLoopAux_nostop_bytes (pattern : List Byte) (deviceSize : Nat) :
    ∀ (fuel t1 t2 bw : Nat),
      (writeLoopAux (fun _ => false) pattern deviceSize fuel t1 bw).1 =
      (writeLoopAux (fun _ => false) pattern deviceSize fuel t2 bw).1 := by
  intro fuel
  induction fuel with
  | zero => intro t1 t2 bw; rfl
  | succ n ih =>
    intro t1 t2 bw
    simp only [writeLoopAux]
    split
    next h => exact ih (t1 + 1) (t2 + 1) _
    next h => rfl

/-- With the stop flag never set, whether a pass's write succeeds does not
depend on the check index it starts from. -/
theorem write_pattern_nostop_success (pattern : List Byte)
    (deviceSize t1 t2 : Nat) :
    (write_pattern (fun _ => false) pattern deviceSize t1).success =
    (write_pattern (fun _ => false) pattern deviceSize t2).success := by
  simp only [write_pattern]
  rw [writeLoopAux_nostop_bytes pattern deviceSize deviceSize t1 t2 0]

/-- With the stop flag never set, the multipass engine's returned boolean
and the number of passes begun are independent of the verify read-backs:
a verification mismatch never aborts the wipe. -/
theorem multipassAux_verify_independent (urandom : Nat → List Byte)
    (rb1 rb2 : Nat → Nat → List Byte) (deviceSize : Nat) :
    ∀ (passes : List WipePass) (t1 t2 rng : Nat) (vs1 vs2 : String),
      (multipassAux (fun _ => false) urandom rb1 deviceSize passes t1 rng vs1).success
        = (multipassAux (fun _ => false) urandom rb2 deviceSize passes t2 rng vs2).success ∧
      (multipassAux (fun _ => false) urandom rb1 deviceSize passes t1 rng vs1).trace.length
        = (multipassAux (fun _ => false) urandom rb2 deviceSize passes t2 rng vs2).trace.length := by
  intro passes
  induction passes with
  | nil => intro t1 t2 rng vs1 vs2; exact ⟨rfl, rfl⟩
  | cons p rest ih =>
    intro t1 t2 rng vs1 vs2
    cases hpp : passPattern urandom rng p with
    | none => simp [multipassAux, hpp]
    | some pr =>
      obtain ⟨pattern, rng'⟩ := pr
      have hsucc := write_pattern_nostop_success pattern deviceSize (t1 + 1) (t2 + 1)
      simp only [multipassAux, hpp, Bool.false_eq_true, if_false]
      cases hw : (write_pattern (fun _ => false) pattern deviceSize (t2 + 1)).success with
      | false =>
        rw [hw] at hsucc
        simp [hsucc, hw]
      | true =>
        rw [hw] at hsucc
        simp only [hsucc, hw, Bool.not_true, Bool.false_eq_true, if_false]
        cases hv : p.verify with
        | false =>
          simp only [Bool.false_eq_true, if_false, List.length_cons]
          refine ⟨(ih _ _ _ _ _).1, ?_⟩
          rw [(ih _ _ _ _ _).2]
        | true =>
          simp only [if_true, List.length_cons]
          refine ⟨(ih _ _ _ _ _).1, ?_⟩
          rw [(ih _ _ _ _ _).2]

/-- When the returned outcome is True, the final-status computation took its
success branch: the erase path reported success, the stop flag read false,
and the terminal status is COMPLETED. -/
theorem wipeFinish_ret_true (env : WipeEnv) (a b : Bool) (tr : List PassRecord)
    (vs : String) (rng : Nat) (ok : Bool) (t : Nat)
    (h : (wipeFinish env a b tr vs rng ok t).outcome = .ret true) :
    ok = true ∧ env.stop t = false ∧
    (wipeFinish env a b tr vs rng ok t).status = .completed := by
  unfold wipeFinish at h ⊢
  split at h
  next hcond =>
    simp only [Bool.and_eq_true, Bool.not_eq_true'] at hcond
    simp [hcond]
  next => simp at h

/-- On the software path (PURGE with neither hardware erase available, all
safety checks passing), `wipe_device` is the multipass engine on the PURGE
pass list followed by the final-status computation. -/
theorem wipe_device_purge_software (env : WipeEnv) (token : String)
    (hex : env.deviceExists = true) (hacc : env.accessOk = true)
    (hmnt : env.info.is_mounted = false) (hprep : env.prepareOk = true)
    (hAta : env.info.supports_ata_secure_erase = false)
    (hNvme : env.info.supports_nvme_secure_erase = false) :
    wipe_device env .purge token false =
      wipeFinish env false false
        (multipassAux env.stop env.urandom env.readback env.info.size_bytes
          purgePasses 0 0 "pending").trace
        (multipassAux env.stop env.urandom env.readback env.info.size_bytes
          purgePasses 0 0 "pending").verification_status
        (multipassAux env.stop env.urandom env.readback env.info.size_bytes
          purgePasses 0 0 "pending").rngCalls
        (multipassAux env.stop env.urandom env.readback env.info.size_bytes
          purgePasses 0 0 "pending").success
        (multipassAux env.stop env.urandom env.readback env.info.size_bytes
          purgePasses 0 0 "pending").tEnd := by
  simp [wipe_device, hex, hacc, hmnt, hprep, hAta, hNvme, wipe_patterns]

/-- C1: every software-path Purge job that runs to completion ran exactly 5
passes, in order Random, Complement, Random, FixedPattern(0x55), Zeros,
each with verification enabled, and each pass started with `bytes_written`
reset to 0 and ended with `bytes_written` equal to the device's size in
bytes. -/
theorem purge_software_five_passes (env : WipeEnv) (token : String)
    (hAta : env.info.supports_ata_secure_erase = false)
    (hNvme : env.info.supports_nvme_secure_erase = false)
    (hOut : (wipe_device env .purge token false).outcome = .ret true) :
    (wipe_device env .purge token false).status = .completed ∧
    (wipe_device env .purge token false).trace.length = 5 ∧
    (wipe_device env .purge token false).trace.map (fun r => r.pattern_type)
      = ["random", "complement", "random", "pattern", "zeros"] ∧
    (wipe_device env .purge token false).trace.map (fun r => r.pass_id)
      = [1, 2, 3, 4, 5] ∧
    (wipe_device env .purge token false).trace.map (fun r => r.name)
      = ["Random Pass 1", "Complement Pass", "Random Pass 2",
         "Pattern Pass (0x55)", "Final Zero Pass"] ∧
    ∀ r ∈ (wipe_device env .purge token false).trace,
      r.verify = true ∧ r.startBytesWritten = 0 ∧
      r.endBytesWritten = env.info.size_bytes := by
  cases hex : env.deviceExists with
  | false => simp [wipe_device, hex] at hOut
  | true =>
  cases hacc : env.accessOk with
  | false => simp [wipe_device, hex, hacc] at hOut
  | true =>
  cases hmnt : env.info.is_mounted with
  | true => simp [wipe_device, hex, hacc, hmnt] at hOut
  | false =>
  cases hprep : env.prepareOk with
  | false => simp [wipe_device, hex, hacc, hmnt, hprep] at hOut
  | true =>
  rw [wipe_device_purge_software env token hex hacc hmnt hprep hAta hNvme]
    at hOut ⊢
  obtain ⟨hok, _, hstatus⟩ := wipeFinish_ret_true _ _ _ _ _ _ _ _ hOut
  have hF := multipassAux_success_forall₂ env.stop env.urandom env.readback
    env.info.size_bytes purgePasses 0 0 "pending" hok
  rw [wipeFinish_trace]
  refine ⟨hstatus, ?_⟩
  set M := multipassAux env.stop env.urandom env.readback env.info.size_bytes
    purgePasses 0 0 "pending" with hM
  simp only [purgePasses] at hF
  obtain ⟨r1, t1, hr1, hF, ht0⟩ := List.forall₂_cons_left_iff.mp hF
  obtain ⟨r2, t2, hr2, hF, ht1⟩ := List.forall₂_cons_left_iff.mp hF
  obtain ⟨r3, t3, hr3, hF, ht2⟩ := List.forall₂_cons_left_iff.mp hF
  obtain ⟨r4, t4, hr4, hF, ht3⟩ := List.forall₂_cons_left_iff.mp hF
  obtain ⟨r5, t5, hr5, hF, ht4⟩ := List.forall₂_cons_left_iff.mp hF
  have ht5 := List.forall₂_nil_left_iff.mp hF
  rw [ht0, ht1, ht2, ht3, ht4, ht5]
  obtain ⟨h1a, h1b, h1c, h1d, h1e, h1f⟩ := hr1
  obtain ⟨h2a, h2b, h2c, h2d, h2e, h2f⟩ := hr2
  obtain ⟨h3a, h3b, h3c, h3d, h3e, h3f⟩ := hr3
  obtain ⟨h4a, h4b, h4c, h4d, h4e, h4f⟩ := hr4
  obtain ⟨h5a, h5b, h5c, h5d, h5e, h5f⟩ := hr5
  refine ⟨rfl, ?_, ?_, ?_, ?_⟩
  · simp [h1c, h2c, h3c, h4c, h5c]
  · simp [h1a, h2a, h3a, h4a, h5a]
  · simp [h1b, h2b, h3b, h4b, h5b]
  · intro r hr
    simp only [List.mem_cons, List.not_mem_nil, or_false] at hr
    rcases hr with rfl | rfl | rfl | rfl | rfl
    · exact ⟨h1d, h1e, h1f⟩
    · exact ⟨h2d, h2e, h2f⟩
    · exact ⟨h3d, h3e, h3f⟩
    · exact ⟨h4d, h4e, h4f⟩
    · exact ⟨h5d, h5e, h5f⟩

/-! Symbolic evaluation machinery: closed runs are reduced with rewriting
instead of full evaluation, since the 4096-byte pattern buffers of the
source make kernel-level evaluation of a whole run infeasible. -/

/-- A write loop whose `bytes_written` already reached the device size
exits at once. -/
theorem writeLoopAux_done (stop : Nat → Bool) (pattern : List Byte)
    (deviceSize fuel t bw : Nat) (h : deviceSize ≤ bw) :
    writeLoopAux stop pattern deviceSize fuel t bw = (bw, t, []) := by
  cases fuel with
  | zero => rfl
  | succ n => simp [writeLoopAux, Nat.not_lt.mpr h]

/-- One unstopped write-loop iteration below the device size. -/
theorem writeLoopAux_step (stop : Nat → Bool) (pattern : List Byte)
    (deviceSize fuel t bw : Nat) (hbw : bw < deviceSize)
    (hstop : stop t = false) :
    writeLoopAux stop pattern deviceSize (fuel + 1) t bw =
      ((writeLoopAux stop pattern deviceSize fuel (t + 1)
          (bw + min pattern.length (deviceSize - bw))).1,
       (writeLoopAux stop pattern deviceSize fuel (t + 1)
          (bw + min pattern.length (deviceSize - bw))).2.1,
       (t, pattern.take (min pattern.length (deviceSize - bw))) ::
         (writeLoopAux stop pattern deviceSize fuel (t + 1)
           (bw + min pattern.length (deviceSize - bw))).2.2) := by
  simp [writeLoopAux, hbw, hstop]

/-- On a device no larger than one 4096-byte buffer, an unstopped pass
writes the whole device in a single chunk. -/
theorem write_pattern_full_chunk (pattern : List Byte) (size t : Nat)
    (h4 : pattern.length = 4096) (hsz : 0 < size) (hsize : size ≤ 4096) :
    write_pattern (fun _ => false) pattern size t =
      { bytes_written := size, tEnd := t + 1,
        chunks := [(t, pattern.take size)], success := true } := by
  obtain ⟨s, rfl⟩ : ∃ s, size = s + 1 := ⟨size - 1, by omega⟩
  have hmin : min pattern.length (s + 1 - 0) = s + 1 := by
    rw [h4]; omega
  simp only [write_pattern,
    writeLoopAux_step (fun _ => false) pattern (s + 1) s t 0 (by omega) rfl,
    hmin, writeLoopAux_done (fun _ => false) pattern (s + 1) s (t + 1)
      (0 + (s + 1)) (by omega)]
  simp

/-- On an 8192-byte device, an unstopped pass with a 4096-byte pattern
writes exactly two full-buffer chunks. -/
theorem write_pattern_two_chunks (pattern : List Byte) (t : Nat)
    (h4 : pattern.length = 4096) :
    write_pattern (fun _ => false) pattern 8192 t =
      { bytes_written := 8192, tEnd := t + 2,
        chunks := [(t, pattern.take 4096), (t + 1, pattern.take 4096)],
        success := true } := by
  have hmin0 : min pattern.length (8192 - 0) = 4096 := by rw [h4]; omega
  have hmin1 : min pattern.length (8192 - 4096) = 4096 := by rw [h4]; omega
  have e : (8192 : Nat) = 8191 + 1 := rfl
  simp only [write_pattern]
  rw [show writeLoopAux (fun _ => false) pattern 8192 8192 t 0
        = writeLoopAux (fun _ => false) pattern 8192 (8191 + 1) t 0 from rfl,
    writeLoopAux_step (fun _ => false) pattern 8192 8191 t 0 (by omega) rfl,
    hmin0,
    show (8191 : Nat) = 8190 + 1 from rfl,
    writeLoopAux_step (fun _ => false) pattern 8192 8190 (t + 1) (0 + 4096)
      (by omega) rfl]
  have hmin1' : min pattern.length (8192 - (0 + 4096)) = 4096 := by
    rw [h4]; omega
  rw [hmin1',
    writeLoopAux_done (fun _ => false) pattern 8192 8190 (t + 1 + 1)
      (0 + 4096 + 4096) (by omega)]
  simp

/-- On a device within the 100 MiB sampling bound, a verify whose first
read at offset 0 mismatches returns false after one sample. -/
theorem verifyLoop_small_mismatch (readAt : Nat → List Byte)
    (expected : List Byte) (deviceSize t : Nat)
    (hsize : deviceSize ≤ 100 * 1024 * 1024)
    (h : ¬ readAt 0 = expected) :
    verifyLoopAux (fun _ => false) readAt expected deviceSize 10 t
      = (false, t + 1) := by
  have hmin : min deviceSize (100 * 1024 * 1024) = deviceSize :=
    Nat.min_eq_left hsize
  simp [verifyLoopAux, hmin, h]

/-- On a device within the 100 MiB sampling bound, a verify whose read at
offset 0 matches succeeds through all ten samples. -/
theorem verifyLoop_small_match (readAt : Nat → List Byte)
    (expected : List Byte) (deviceSize t : Nat)
    (hsize : deviceSize ≤ 100 * 1024 * 1024)
    (h : readAt 0 = expected) :
    verifyLoopAux (fun _ => false) readAt expected deviceSize 10 t
      = (true, t + 10) := by
  have hmin : min deviceSize (100 * 1024 * 1024) = deviceSize :=
    Nat.min_eq_left hsize
  have hoff : ¬ (min deviceSize (100 * 1024 * 1024) < deviceSize) := by
    omega
  simp only [verifyLoopAux, hoff, if_false, h, if_pos, Bool.false_eq_true,
    if_true]

/-- The empty pass list returns True, leaving trace and status unchanged. -/
theorem multipassAux_nil (stop : Nat → Bool) (urandom : Nat → List Byte)
    (readback : Nat → Nat → List Byte) (deviceSize t rng : Nat)
    (vs : String) :
    multipassAux stop urandom readback deviceSize [] t rng vs =
      { success := true, verification_status := vs, trace := [], tEnd := t,
        rngCalls := rng } := rfl

/-- One fully-written, verify-enabled pass of the unstopped multipass
engine, given the pattern, the write result and the verify result. -/
theorem multipassAux_cons_eval (urandom : Nat → List Byte)
    (rb : Nat → Nat → List Byte) (size : Nat) (p : WipePass)
    (rest : List WipePass) (t rng : Nat) (vs : String)
    (pattern : List Byte) (rng' : Nat) (cs : List (Nat × List Byte))
    (tw : Nat) (v : Bool) (tv : Nat)
    (hpp : passPattern urandom rng p = some (pattern, rng'))
    (hw : write_pattern (fun _ => false) pattern size (t + 1) =
      { bytes_written := size, tEnd := tw, chunks := cs, success := true })
    (hver : p.verify = true)
    (hv : verifyLoopAux (fun _ => false) (rb p.pass_id) pattern size 10 tw
      = (v, tv)) :
    multipassAux (fun _ => false) urandom rb size (p :: rest) t rng vs =
      { multipassAux (fun _ => false) urandom rb size rest tv rng'
          (if v then "passed" else "failed") with
        trace :=
          { pass_id := p.pass_id, name := p.name,
            pattern_type := p.pattern_type, pattern_data := p.pattern_data,
            verify := p.verify, rngBefore := rng, pattern := pattern,
            startT := t, startBytesWritten := 0, endBytesWritten := size,
            chunks := cs, writeOk := true, verifyResult := some v,
            statusAfter := if v then "passed" else "failed" } ::
          (multipassAux (fun _ => false) urandom rb size rest tv rng'
            (if v then "passed" else "failed")).trace } := by
  simp only [multipassAux, hpp, hw, hver, hv, Bool.false_eq_true, if_false,
    Bool.not_true, if_true]

/-- The complement pattern has the requested size. -/
theorem generate_complement_pattern_length (n : Nat) :
    (generate_complement_pattern n).length = n := by
  simp [generate_complement_pattern]

/-- Repeating a byte string n times yields n times its length. -/
theorem bytesRepeat_length (d : List Byte) (n : Nat) :
    (bytesRepeat d n).length = n * d.length := by
  induction n with
  | zero => simp [bytesRepeat]
  | succ k ih =>
    simp only [bytesRepeat, List.replicate_succ, List.flatten_cons,
      List.length_append] at ih ⊢
    rw [ih, Nat.succ_mul]
    omega

/-- The empty list differs from any non-empty replicate. -/
theorem nil_ne_replicate (n : Nat) (a : Byte) (h : 0 < n) :
    ¬ (([] : List Byte) = List.replicate n a) := by
  intro he
  have hl := congrArg List.length he
  simp at hl
  omega

/-- One verified pass on a 1-byte device whose verify read mismatches:
the pass writes its single byte, verification fails after one sample, and
the engine moves on with status "failed". -/
theorem multipass_pass1b_mismatch (urandom : Nat → List Byte)
    (rb : Nat → Nat → List Byte) (p : WipePass) (rest : List WipePass)
    (t rng : Nat) (vs : String) (pattern : List Byte) (rng' : Nat)
    (hpp : passPattern urandom rng p = some (pattern, rng'))
    (h4 : pattern.length = 4096) (hver : p.verify = true)
    (hmm : ¬ rb p.pass_id 0 = pattern) :
    multipassAux (fun _ => false) urandom rb 1 (p :: rest) t rng vs =
      { multipassAux (fun _ => false) urandom rb 1 rest (t + 3) rng'
          "failed" with
        trace :=
          { pass_id := p.pass_id, name := p.name,
            pattern_type := p.pattern_type, pattern_data := p.pattern_data,
            verify := p.verify, rngBefore := rng, pattern := pattern,
            startT := t, startBytesWritten := 0, endBytesWritten := 1,
            chunks := [(t + 1, pattern.take 1)], writeOk := true,
            verifyResult := some false, statusAfter := "failed" } ::
          (multipassAux (fun _ => false) urandom rb 1 rest (t + 3) rng'
            "failed").trace } := by
  have hw := write_pattern_full_chunk pattern 1 (t + 1) h4 (by omega)
    (by omega)
  have hv := verifyLoop_small_mismatch (rb p.pass_id) pattern 1 (t + 1 + 1)
    (by omega) hmm
  have h := multipassAux_cons_eval urandom rb 1 p rest t rng vs pattern rng'
    _ _ false _ hpp hw hver hv
  simpa using h

/-- One verified pass on a 1-byte device whose verify read matches:
the pass writes its single byte, all ten samples verify, and the engine
moves on with status "passed". -/
theorem multipass_pass1b_match (urandom : Nat → List Byte)
    (rb : Nat → Nat → List Byte) (p : WipePass) (rest : List WipePass)
    (t rng : Nat) (vs : String) (pattern : List Byte) (rng' : Nat)
    (hpp : passPattern urandom rng p = some (pattern, rng'))
    (h4 : pattern.length = 4096) (hver : p.verify = true)
    (hm : rb p.pass_id 0 = pattern) :
    multipassAux (fun _ => false) urandom rb 1 (p :: rest) t rng vs =
      { multipassAux (fun _ => false) urandom rb 1 rest (t + 12) rng'
          "passed" with
        trace :=
          { pass_id := p.pass_id, name := p.name,
            pattern_type := p.pattern_type, pattern_data := p.pattern_data,
            verify := p.verify, rngBefore := rng, pattern := pattern,
            startT := t, startBytesWritten := 0, endBytesWritten := 1,
            chunks := [(t + 1, pattern.take 1)], writeOk := true,
            verifyResult := some true, statusAfter := "passed" } ::
          (multipassAux (fun _ => false) urandom rb 1 rest (t + 12) rng'
            "passed").trace } := by
  have hw := write_pattern_full_chunk pattern 1 (t + 1) h4 (by omega)
    (by omega)
  have hv := verifyLoop_small_match (rb p.pass_id) pattern 1 (t + 1 + 1)
    (by omega) hm
  have h := multipassAux_cons_eval urandom rb 1 p rest t rng vs pattern rng'
    _ _ true _ hpp hw hver hv
  simpa using h

/-- One verified pass on an 8192-byte device whose verify read mismatches:
the same 4096-byte buffer is written twice, verification fails after one
sample, and the engine moves on with status "failed". -/
theorem multipass_pass8k_mismatch (urandom : Nat → List Byte)
    (rb : Nat → Nat → List Byte) (p : WipePass) (rest : List WipePass)
    (t rng : Nat) (vs : String) (pattern : List Byte) (rng' : Nat)
    (hpp : passPattern urandom rng p = some (pattern, rng'))
    (h4 : pattern.length = 4096) (hver : p.verify = true)
    (hmm : ¬ rb p.pass_id 0 = pattern) :
    multipassAux (fun _ => false) urandom rb 8192 (p :: rest) t rng vs =
      { multipassAux (fun _ => false) urandom rb 8192 rest (t + 4) rng'
          "failed" with
        trace :=
          { pass_id := p.pass_id, name := p.name,
            pattern_type := p.pattern_type, pattern_data := p.pattern_data,
            verify := p.verify, rngBefore := rng, pattern := pattern,
            startT := t, startBytesWritten := 0, endBytesWritten := 8192,
            chunks := [(t + 1, pattern.take 4096),
                       (t + 2, pattern.take 4096)],
            writeOk := true,
            verifyResult := some false, statusAfter := "failed" } ::
          (multipassAux (fun _ => false) urandom rb 8192 rest (t + 4) rng'
            "failed").trace } := by
  have hw := write_pattern_two_chunks pattern (t + 1) h4
  have hv := verifyLoop_small_mismatch (rb p.pass_id) pattern 8192
    (t + 1 + 2) (by omega) hmm
  have h := multipassAux_cons_eval urandom rb 8192 p rest t rng vs pattern
    rng' _ _ false _ hpp hw hver hv
  simpa using h

/-- Closed-run evaluation: on the 1-byte device of `envVerifyDemo` (verify
reads mismatch on passes 1-4 and match on pass 5), the software Purge run
completes, every early verification failure is recorded as "failed", and
the final verification status ends up "passed". -/
theorem envVerifyDemo_run_facts :
    (wipe_device envVerifyDemo .purge "tok" false).outcome = .ret true ∧
    (wipe_device envVerifyDemo .purge "tok" false).status = .completed ∧
    (wipe_device envVerifyDemo .purge "tok" false).verification_status
      = "passed" ∧
    (wipe_device envVerifyDemo .purge "tok" false).trace.map
      (fun r => r.statusAfter)
      = ["failed", "failed", "failed", "failed", "passed"] := by
  have hu : envVerifyDemo.urandom = fun k => List.replicate 4096 (k + 1) := rfl
  have hrb : envVerifyDemo.readback
      = fun pid _ => if pid = 5 then List.replicate 4096 0x00 else [] := rfl
  have hpp1 : passPattern (fun k => List.replicate 4096 (k + 1)) 0
      ⟨1, "Random Pass 1", "random", none, true⟩
      = some (List.replicate 4096 1, 1) := rfl
  have hpp2 : passPattern (fun k => List.replicate 4096 (k + 1)) 1
      ⟨2, "Complement Pass", "complement", none, true⟩
      = some (generate_complement_pattern 4096, 1) := rfl
  have hpp3 : passPattern (fun k => List.replicate 4096 (k + 1)) 1
      ⟨3, "Random Pass 2", "random", none, true⟩
      = some (List.replicate 4096 2, 2) := rfl
  have hpp4 : passPattern (fun k => List.replicate 4096 (k + 1)) 2
      ⟨4, "Pattern Pass (0x55)", "pattern", some [0x55], true⟩
      = some (bytesRepeat [0x55] 4096, 2) := rfl
  have hpp5 : passPattern (fun k => List.replicate 4096 (k + 1)) 2
      ⟨5, "Final Zero Pass", "zeros", none, true⟩
      = some (List.replicate 4096 0x00, 2) := rfl
  have h41 : (List.replicate 4096 (1 : Byte)).length = 4096 :=
    List.length_replicate 4096 1
  have h42 := generate_complement_pattern_length 4096
  have h43 : (List.replicate 4096 (2 : Byte)).length = 4096 :=
    List.length_replicate 4096 2
  have h44 : (bytesRepeat [0x55] 4096).length = 4096 := by
    rw [bytesRepeat_length]; rfl
  have h45 : (List.replicate 4096 (0x00 : Byte)).length = 4096 :=
    List.length_replicate 4096 0x00
  have hmm1 : ¬ ((fun (pid : Nat) (_ : Nat) =>
      if pid = 5 then List.replicate 4096 (0x00 : Byte) else []) 1 0
      = List.replicate 4096 1) :=
    fun h => nil_ne_replicate 4096 1 (by omega) h
  have hmm2 : ¬ ((fun (pid : Nat) (_ : Nat) =>
      if pid = 5 then List.replicate 4096 (0x00 : Byte) else []) 2 0
      = generate_complement_pattern 4096) := by
    intro h
    have hl := congrArg List.length h
    rw [generate_complement_pattern_length] at hl
    simp at hl
  have hmm3 : ¬ ((fun (pid : Nat) (_ : Nat) =>
      if pid = 5 then List.replicate 4096 (0x00 : Byte) else []) 3 0
      = List.replicate 4096 2) :=
    fun h => nil_ne_replicate 4096 2 (by omega) h
  have hmm4 : ¬ ((fun (pid : Nat) (_ : Nat) =>
      if pid = 5 then List.replicate 4096 (0x00 : Byte) else []) 4 0
      = bytesRepeat [0x55] 4096) := by
    intro h
    have hl := congrArg List.length h
    rw [bytesRepeat_length] at hl
    simp at hl
  have hm5 : ((fun (pid : Nat) (_ : Nat) =>
      if pid = 5 then List.replicate 4096 (0x00 : Byte) else []) 5 0
      = List.replicate 4096 0x00) := rfl
  rw [wipe_device_purge_software envVerifyDemo "tok" rfl rfl rfl rfl rfl rfl]
  rw [show envVerifyDemo.stop = (fun _ => false) from rfl, hu, hrb,
    show envVerifyDemo.info.size_bytes = 1 from rfl]
  simp only [purgePasses]
  rw [multipass_pass1b_mismatch _ _ _ _ _ _ _ _ _ hpp1 h41 rfl hmm1]
  rw [multipass_pass1b_mismatch _ _ _ _ _ _ _ _ _ hpp2 h42 rfl hmm2]
  rw [multipass_pass1b_mismatch _ _ _ _ _ _ _ _ _ hpp3 h43 rfl hmm3]
  rw [multipass_pass1b_mismatch _ _ _ _ _ _ _ _ _ hpp4 h44 rfl hmm4]
  rw [multipass_pass1b_match _ _ _ _ _ _ _ _ _ hpp5 h45 rfl hm5]
  rw [multipassAux_nil]
  exact ⟨rfl, rfl, rfl, rfl⟩

/-- Witness for C1: the concrete 1-byte environment completes a software
Purge job, and the five passes run as the theorem states. -/
theorem purge_software_five_passes_witness :
    (wipe_device envVerifyDemo .purge "tok" false).outcome = .ret true ∧
    (wipe_device envVerifyDemo .purge "tok" false).trace.map
      (fun r => r.pattern_type)
      = ["random", "complement", "random", "pattern", "zeros"] :=
  ⟨envVerifyDemo_run_facts.1,
   (purge_software_five_passes envVerifyDemo "tok" rfl rfl
     envVerifyDemo_run_facts.1).2.2.1⟩

/-- Closed-run evaluation: on the 8192-byte device of `envReuseDemo`, the
software Purge run completes, the first (Random) pass writes its single
4096-byte buffer to both blocks, and the whole five-pass run draws from
the CSPRNG only twice (once per random pass, not once per block). -/
theorem envReuseDemo_run_facts :
    (wipe_device envReuseDemo .purge "tok" false).outcome = .ret true ∧
    (wipe_device envReuseDemo .purge "tok" false).rngCallsUsed = 2 ∧
    ((wipe_device envReuseDemo .purge "tok" false).trace.headD
        default).pattern_type = "random" ∧
    ((wipe_device envReuseDemo .purge "tok" false).trace.headD
        default).chunks.map Prod.snd
      = [List.replicate 4096 1, List.replicate 4096 1] := by
  have hu : envReuseDemo.urandom = fun k => List.replicate 4096 (k + 1) := rfl
  have hrb : envReuseDemo.readback = fun (_ : Nat) (_ : Nat) => ([] : List Byte) := rfl
  have hpp1 : passPattern (fun k => List.replicate 4096 (k + 1)) 0
      ⟨1, "Random Pass 1", "random", none, true⟩
      = some (List.replicate 4096 1, 1) := rfl
  have hpp2 : passPattern (fun k => List.replicate 4096 (k + 1)) 1
      ⟨2, "Complement Pass", "complement", none, true⟩
      = some (generate_complement_pattern 4096, 1) := rfl
  have hpp3 : passPattern (fun k => List.replicate 4096 (k + 1)) 1
      ⟨3, "Random Pass 2", "random", none, true⟩
      = some (List.replicate 4096 2, 2) := rfl
  have hpp4 : passPattern (fun k => List.replicate 4096 (k + 1)) 2
      ⟨4, "Pattern Pass (0x55)", "pattern", some [0x55], true⟩
      = some (bytesRepeat [0x55] 4096, 2) := rfl
  have hpp5 : passPattern (fun k => List.replicate 4096 (k + 1)) 2
      ⟨5, "Final Zero Pass", "zeros", none, true⟩
      = some (List.replicate 4096 0x00, 2) := rfl
  have h41 : (List.replicate 4096 (1 : Byte)).length = 4096 :=
    List.length_replicate 4096 1
  have h42 := generate_complement_pattern_length 4096
  have h43 : (List.replicate 4096 (2 : Byte)).length = 4096 :=
    List.length_replicate 4096 2
  have h44 : (bytesRepeat [0x55] 4096).length = 4096 := by
    rw [bytesRepeat_length]; rfl
  have h45 : (List.replicate 4096 (0x00 : Byte)).length = 4096 :=
    List.length_replicate 4096 0x00
  have hmm1 : ¬ ((fun (_ : Nat) (_ : Nat) => ([] : List Byte)) 1 0
      = List.replicate 4096 1) :=
    fun h => nil_ne_replicate 4096 1 (by omega) h
  have hmm2 : ¬ ((fun (_ : Nat) (_ : Nat) => ([] : List Byte)) 2 0
      = generate_complement_pattern 4096) := by
    intro h
    have hl := congrArg List.length h
    rw [generate_complement_pattern_length] at hl
    simp at hl
  have hmm3 : ¬ ((fun (_ : Nat) (_ : Nat) => ([] : List Byte)) 3 0
      = List.replicate 4096 2) :=
    fun h => nil_ne_replicate 4096 2 (by omega) h
  have hmm4 : ¬ ((fun (_ : Nat) (_ : Nat) => ([] : List Byte)) 4 0
      = bytesRepeat [0x55] 4096) := by
    intro h
    have hl := congrArg List.length h
    rw [bytesRepeat_length] at hl
    simp at hl
  have hmm5 : ¬ ((fun (_ : Nat) (_ : Nat) => ([] : List Byte)) 5 0
      = List.replicate 4096 0x00) :=
    fun h => nil_ne_replicate 4096 0x00 (by omega) h
  have htake : (List.replicate 4096 (1 : Byte)).take 4096
      = List.replicate 4096 1 := by
    rw [List.take_replicate, Nat.min_self]
  rw [wipe_device_purge_software envReuseDemo "tok" rfl rfl rfl rfl rfl rfl]
  rw [show envReuseDemo.stop = (fun _ => false) from rfl, hu, hrb,
    show envReuseDemo.info.size_bytes = 8192 from rfl]
  simp only [purgePasses]
  rw [multipass_pass8k_mismatch _ _ _ _ _ _ _ _ _ hpp1 h41 rfl hmm1]
  rw [multipass_pass8k_mismatch _ _ _ _ _ _ _ _ _ hpp2 h42 rfl hmm2]
  rw [multipass_pass8k_mismatch _ _ _ _ _ _ _ _ _ hpp3 h43 rfl hmm3]
  rw [multipass_pass8k_mismatch _ _ _ _ _ _ _ _ _ hpp4 h44 rfl hmm4]
  rw [multipass_pass8k_mismatch _ _ _ _ _ _ _ _ _ hpp5 h45 rfl hmm5]
  rw [multipassAux_nil]
  refine ⟨rfl, rfl, rfl, ?_⟩
  show [(List.replicate 4096 (1 : Byte)).take 4096,
        (List.replicate 4096 (1 : Byte)).take 4096]
      = [List.replicate 4096 1, List.replicate 4096 1]
  rw [htake]

/-- Closed-run evaluation of the single-pass engine instance `mpDemo`:
the zeros pass writes its byte, the verify read mismatches, and the run
ends successful with verification status "failed". -/
theorem mpDemo_eval :
    mpDemo =
      { success := true, verification_status := "failed",
        trace := [{ pass_id := 1, name := "Final Zero Pass",
                    pattern_type := "zeros", pattern_data := none,
                    verify := true, rngBefore := 0,
                    pattern := List.replicate 4096 0x00, startT := 0,
                    startBytesWritten := 0, endBytesWritten := 1,
                    chunks := [(1, (List.replicate 4096 0x00).take 1)],
                    writeOk := true, verifyResult := some false,
                    statusAfter := "failed" }],
        tEnd := 3, rngCalls := 0 } := by
  have hpp : passPattern (fun _ => List.replicate 4096 7) 0
      ⟨1, "Final Zero Pass", "zeros", none, true⟩
      = some (List.replicate 4096 0x00, 0) := rfl
  unfold mpDemo
  rw [multipass_pass1b_mismatch _ _ _ _ _ _ _ (List.replicate 4096 0x00) 0
    hpp (List.length_replicate 4096 0x00) rfl
    (fun h => nil_ne_replicate 4096 0x00 (by omega) h)]
  rw [multipassAux_nil]

/-- On a Clear job with all safety checks passing, `wipe_device` is the
multipass engine on the CLEAR pass list followed by the final-status
computation (Clear never takes a hardware path). -/
theorem wipe_device_clear_software (env : WipeEnv) (token : String)
    (hex : env.deviceExists = true) (hacc : env.accessOk = true)
    (hmnt : env.info.is_mounted = false) (hprep : env.prepareOk = true) :
    wipe_device env .clear token false =
      wipeFinish env false false
        (multipassAux env.stop env.urandom env.readback env.info.size_bytes
          clearPasses 0 0 "pending").trace
        (multipassAux env.stop env.urandom env.readback env.info.size_bytes
          clearPasses 0 0 "pending").verification_status
        (multipassAux env.stop env.urandom env.readback env.info.size_bytes
          clearPasses 0 0 "pending").rngCalls
        (multipassAux env.stop env.urandom env.readback env.info.size_bytes
          clearPasses 0 0 "pending").success
        (multipassAux env.stop env.urandom env.readback env.info.size_bytes
          clearPasses 0 0 "pending").tEnd := by
  simp [wipe_device, hex, hacc, hmnt, hprep, wipe_patterns]

/-- On a Purge job with ATA secure erase advertised, `wipe_device` runs
the ATA path and finishes on its boolean result. -/
theorem wipe_device_purge_ata (env : WipeEnv) (token : String)
    (hex : env.deviceExists = true) (hacc : env.accessOk = true)
    (hmnt : env.info.is_mounted = false) (hprep : env.prepareOk = true)
    (hA : env.info.supports_ata_secure_erase = true) :
    wipe_device env .purge token false =
      wipeFinish env true false [] "pending" 0 (ata_secure_erase env) 0 := by
  simp [wipe_device, hex, hacc, hmnt, hprep, wipe_patterns, hA]

/-- On a Purge job with NVMe but not ATA secure erase advertised,
`wipe_device` runs the NVMe path and finishes on its boolean result. -/
theorem wipe_device_purge_nvme (env : WipeEnv) (token : String)
    (hex : env.deviceExists = true) (hacc : env.accessOk = true)
    (hmnt : env.info.is_mounted = false) (hprep : env.prepareOk = true)
    (hA : env.info.supports_ata_secure_erase = false)
    (hN : env.info.supports_nvme_secure_erase = true) :
    wipe_device env .purge token false =
      wipeFinish env false true [] "pending" 0 env.nvmeOk 0 := by
  simp [wipe_device, hex, hacc, hmnt, hprep, wipe_patterns, hA, hN]

/-- C2: for every device whose target or partitions are mounted, the wipe
request is refused before any destructive action — `prepare_device` never
runs and no pass begins — and the refusal is the distinct DeviceBusy
outcome (the dedicated mounted-filesystems ValueError raised before the
try block), not the generic False return. -/
theorem mounted_device_refused_before_prepare (env : WipeEnv)
    (method : SanitizationMethod) (token : String)
    (hm : method ≠ .destroy)
    (hex : env.deviceExists = true) (hacc : env.accessOk = true)
    (hmnt : env.info.is_mounted = true) :
    (wipe_device env method token false).outcome = .errBusy ∧
    (wipe_device env method token false).prepared = false ∧
    (wipe_device env method token false).trace = [] ∧
    (wipe_device env method token false).outcome ≠ .ret false ∧
    (wipe_device env method token false).outcome ≠ .ret true := by
  have hm' : ¬ (method = SanitizationMethod.destroy) := hm
  simp [wipe_device, hm', hex, hacc, hmnt]

/-- Witness for C2: the concrete mounted environment is refused with the
DeviceBusy outcome and no preparation. -/
theorem mounted_device_refused_before_prepare_witness :
    envMountedDemo.info.is_mounted = true ∧
    (wipe_device envMountedDemo .purge "tok" false).outcome = .errBusy ∧
    (wipe_device envMountedDemo .purge "tok" false).prepared = false :=
  ⟨rfl,
   (mounted_device_refused_before_prepare envMountedDemo .purge "tok"
     (by decide) rfl rfl rfl).1,
   (mounted_device_refused_before_prepare envMountedDemo .purge "tok"
     (by decide) rfl rfl rfl).2.1⟩

/-- Counterexample to C3 as stated: with ATA security Frozen on a device
advertising ATA secure erase, the Purge job does NOT fall back to the
software pass sequence — it returns False with status FAILED and no
software pass ever begins. -/
theorem frozen_ata_no_fallback_counterexample :
    (wipe_device envFrozenDemo .purge "tok" false).outcome = .ret false ∧
    (wipe_device envFrozenDemo .purge "tok" false).status = .failed ∧
    (wipe_device envFrozenDemo .purge "tok" false).usedAta = true ∧
    (wipe_device envFrozenDemo .purge "tok" false).trace = [] :=
  ⟨rfl, rfl, rfl, rfl⟩

/-- C3 amended: on a Purge job whose device advertises ATA secure erase,
a Frozen security state — or a failed security-set-pass, or a failed or
timed-out erase command — makes the ATA path report failure and the job
end FAILED, with no software pass ever run (there is no fallback). -/
theorem frozen_ata_fails_job (env : WipeEnv) (token : String)
    (hex : env.deviceExists = true) (hacc : env.accessOk = true)
    (hmnt : env.info.is_mounted = false) (hprep : env.prepareOk = true)
    (hAta : env.info.supports_ata_secure_erase = true)
    (hfail : env.ataFrozen = true ∨ env.ataSetPassOk = false ∨
      env.ataEraseOk = false)
    (hstop : env.stop 0 = false) :
    (wipe_device env .purge token false).outcome = .ret false ∧
    (wipe_device env .purge token false).status = .failed ∧
    (wipe_device env .purge token false).usedAta = true ∧
    (wipe_device env .purge token false).trace = [] := by
  have hsw : ata_secure_erase env = false := by
    rcases hfail with h | h | h <;> simp [ata_secure_erase, h]
  simp [wipe_device, hex, hacc, hmnt, hprep, hAta, wipe_patterns,
    wipeFinish, hsw, hstop]

/-- Witness for C3's amended theorem: the concrete frozen environment. -/
theorem frozen_ata_fails_job_witness :
    envFrozenDemo.ataFrozen = true ∧
    (wipe_device envFrozenDemo .purge "tok" false).status = .failed ∧
    (wipe_device envFrozenDemo .purge "tok" false).trace = [] :=
  ⟨rfl,
   (frozen_ata_fails_job envFrozenDemo "tok" rfl rfl rfl rfl rfl
     (Or.inl rfl) rfl).2.1,
   (frozen_ata_fails_job envFrozenDemo "tok" rfl rfl rfl rfl rfl
     (Or.inl rfl) rfl).2.2.2⟩

/-- C4: with a monotone stop flag, if cancellation is requested at or
before the run's final check, the job returns False with terminal status
CANCELLED; every chunk of every pass was written at a check where the flag
still read false (the flag is consulted only between buffer writes, so the
loop stops within one buffer-write iteration of the request), and every
pass that began did so at a check where the flag read false — no pass
begins after the cancellation point. -/
theorem cancel_within_one_iteration (env : WipeEnv)
    (method : SanitizationMethod) (token : String) (s : Nat)
    (hmono : ∀ u, env.stop u = true → env.stop (u + 1) = true)
    (hs : env.stop s = true)
    (hm : method ≠ .destroy)
    (hex : env.deviceExists = true) (hacc : env.accessOk = true)
    (hmnt : env.info.is_mounted = false) (hprep : env.prepareOk = true)
    (hle : s ≤ (wipe_device env method token false).tEnd) :
    (wipe_device env method token false).outcome = .ret false ∧
    (wipe_device env method token false).status = .cancelled ∧
    (∀ r ∈ (wipe_device env method token false).trace,
      env.stop r.startT = false ∧ ∀ c ∈ r.chunks, env.stop c.1 = false) := by
  cases method with
  | destroy => exact absurd rfl hm
  | clear =>
    rw [wipe_device_clear_software env token hex hacc hmnt hprep] at hle ⊢
    rw [wipeFinish_tEnd] at hle
    have hstopT := stop_mono_le env.stop hmono hle hs
    obtain ⟨ho, hst⟩ := wipeFinish_stopped _ _ _ _ _ _ _ _ hstopT
    refine ⟨ho, hst, ?_⟩
    rw [wipeFinish_trace]
    intro r hr
    have h := multipassAux_trace_facts env.stop env.urandom env.readback
      env.info.size_bytes clearPasses 0 0 "pending" r hr
    exact ⟨h.1, fun c hc => (h.2.2.1 c hc).1⟩
  | purge =>
    by_cases hA : env.info.supports_ata_secure_erase = true
    · rw [wipe_device_purge_ata env token hex hacc hmnt hprep hA] at hle ⊢
      rw [wipeFinish_tEnd] at hle
      have hstopT := stop_mono_le env.stop hmono hle hs
      obtain ⟨ho, hst⟩ := wipeFinish_stopped _ _ _ _ _ _ _ _ hstopT
      refine ⟨ho, hst, ?_⟩
      rw [wipeFinish_trace]
      simp
    · have hA' : env.info.supports_ata_secure_erase = false := by
        revert hA; cases env.info.supports_ata_secure_erase <;> simp
      by_cases hN : env.info.supports_nvme_secure_erase = true
      · rw [wipe_device_purge_nvme env token hex hacc hmnt hprep hA' hN]
          at hle ⊢
        rw [wipeFinish_tEnd] at hle
        have hstopT := stop_mono_le env.stop hmono hle hs
        obtain ⟨ho, hst⟩ := wipeFinish_stopped _ _ _ _ _ _ _ _ hstopT
        refine ⟨ho, hst, ?_⟩
        rw [wipeFinish_trace]
        simp
      · have hN' : env.info.supports_nvme_secure_erase = false := by
          revert hN; cases env.info.supports_nvme_secure_erase <;> simp
        rw [wipe_device_purge_software env token hex hacc hmnt hprep hA' hN']
          at hle ⊢
        rw [wipeFinish_tEnd] at hle
        have hstopT := stop_mono_le env.stop hmono hle hs
        obtain ⟨ho, hst⟩ := wipeFinish_stopped _ _ _ _ _ _ _ _ hstopT
        refine ⟨ho, hst, ?_⟩
        rw [wipeFinish_trace]
        intro r hr
        have h := multipassAux_trace_facts env.stop env.urandom env.readback
          env.info.size_bytes purgePasses 0 0 "pending" r hr
        exact ⟨h.1, fun c hc => (h.2.2.1 c hc).1⟩

/-- Witness for C4: a stop request arriving at check 1 cancels the
concrete 8192-byte run. -/
theorem cancel_within_one_iteration_witness :
    envCancelDemo.stop 1 = true ∧
    1 ≤ (wipe_device envCancelDemo .purge "tok" false).tEnd ∧
    (wipe_device envCancelDemo .purge "tok" false).status = .cancelled := by
  have hmono : ∀ u, envCancelDemo.stop u = true →
      envCancelDemo.stop (u + 1) = true := by
    intro u hu
    rw [show envCancelDemo.stop = (fun t => decide (1 ≤ t)) from rfl]
      at hu ⊢
    simp only [decide_eq_true_eq] at hu ⊢
    omega
  have hle : 1 ≤ (wipe_device envCancelDemo .purge "tok" false).tEnd := by
    decide
  exact ⟨rfl, hle,
    (cancel_within_one_iteration envCancelDemo .purge "tok" 1 hmono rfl
      (by decide) rfl rfl rfl rfl hle).2.1⟩

/-- Counterexample to C5 as stated: a concrete completed Purge job whose
pass-1 verification mismatch set the status to "failed", after which the
successful verification of a later pass set it back to "passed" — the
Failed status IS later changed to a success value within the same job. -/
theorem verification_status_overwritten_counterexample :
    (wipe_device envVerifyDemo .purge "tok" false).trace.map
      (fun r => r.statusAfter)
      = ["failed", "failed", "failed", "failed", "passed"] ∧
    (wipe_device envVerifyDemo .purge "tok" false).verification_status
      = "passed" ∧
    (wipe_device envVerifyDemo .purge "tok" false).outcome = .ret true :=
  ⟨envVerifyDemo_run_facts.2.2.2, envVerifyDemo_run_facts.2.2.1,
   envVerifyDemo_run_facts.1⟩

/-- C5 amended: a verify-enabled pass whose read-back mismatches sets the
job's verification status to "failed" (and a matching one to "passed")
right after that pass, and the wipe continues: the returned success of an
unstopped multipass run does not depend on the verify read-backs at all.
The status is recomputed per pass, so a later success overwrites an
earlier "failed". -/
theorem verification_mismatch_nonfatal (stop : Nat → Bool)
    (urandom : Nat → List Byte) (readback rb2 : Nat → Nat → List Byte)
    (deviceSize : Nat) (passes : List WipePass) (t t2 rng : Nat)
    (vs vs2 : String) :
    (∀ r ∈ (multipassAux stop urandom readback deviceSize passes t rng
        vs).trace,
      (r.verifyResult = some false → r.statusAfter = "failed") ∧
      (r.verifyResult = some true → r.statusAfter = "passed")) ∧
    (multipassAux (fun _ => false) urandom readback deviceSize passes t rng
        vs).success
      = (multipassAux (fun _ => false) urandom rb2 deviceSize passes t2 rng
        vs2).success := by
  constructor
  · intro r hr
    have h := multipassAux_trace_facts stop urandom readback deviceSize
      passes t rng vs r hr
    exact ⟨h.2.2.2.1, h.2.2.2.2.1⟩
  · exact (multipassAux_verify_independent urandom readback rb2 deviceSize
      passes t t2 rng vs vs2).1

/-- Witness for C5's amended theorem: the concrete single-pass run records
the mismatch as "failed". -/
theorem verification_mismatch_nonfatal_witness :
    (mpDemo.trace.headD default ∈ mpDemo.trace) ∧
    (mpDemo.trace.headD default).verifyResult = some false ∧
    (mpDemo.trace.headD default).statusAfter = "failed" := by
  have hmem : mpDemo.trace.headD default ∈ mpDemo.trace := by
    rw [mpDemo_eval]
    exact List.mem_singleton.mpr rfl
  have hvr : (mpDemo.trace.headD default).verifyResult = some false := by
    rw [mpDemo_eval]
    rfl
  exact ⟨hmem, hvr,
    ((verification_mismatch_nonfatal (fun _ => false)
        (fun _ => List.replicate 4096 7) (fun _ _ => []) (fun _ _ => []) 1
        [⟨1, "Final Zero Pass", "zeros", none, true⟩] 0 0 0 "pending"
        "pending").1
      (mpDemo.trace.headD default) hmem).1 hvr⟩

/-- Counterexample to C6 as stated: a concrete completed Purge run on a
two-block device in which the first Random pass wrote the SAME 4096-byte
buffer to both successive blocks, and the whole five-pass job made only
two CSPRNG draws — the pattern buffer of a Random pass is generated once
per pass and reused across blocks, not generated fresh per block. -/
theorem random_buffer_reused_counterexample :
    (wipe_device envReuseDemo .purge "tok" false).outcome = .ret true ∧
    ((wipe_device envReuseDemo .purge "tok" false).trace.headD
        default).pattern_type = "random" ∧
    ((wipe_device envReuseDemo .purge "tok" false).trace.headD
        default).chunks.map Prod.snd
      = [List.replicate 4096 1, List.replicate 4096 1] ∧
    (wipe_device envReuseDemo .purge "tok" false).rngCallsUsed = 2 :=
  ⟨envReuseDemo_run_facts.1, envReuseDemo_run_facts.2.2.1,
   envReuseDemo_run_facts.2.2.2, envReuseDemo_run_facts.2.1⟩

/-- C6 amended: each pass writes prefixes of one single pattern buffer to
every block: for a Random pass that buffer is the pass's one fresh CSPRNG
draw (reused across the pass's blocks), Zeros/Ones passes use constant
buffers, FixedPattern repeats its byte sequence to 4096 bytes, and
Complement is the alternating 0xAA/0x55 buffer. -/
theorem pass_pattern_shapes (stop : Nat → Bool) (urandom : Nat → List Byte)
    (readback : Nat → Nat → List Byte) (deviceSize : Nat)
    (passes : List WipePass) (t rng : Nat) (vs : String) (r : PassRecord)
    (hr : r ∈ (multipassAux stop urandom readback deviceSize passes t rng
      vs).trace) :
    (r.pattern_type = "random" → r.pattern = urandom r.rngBefore) ∧
    (r.pattern_type = "zeros" → r.pattern = List.replicate 4096 0x00) ∧
    (r.pattern_type = "ones" → r.pattern = List.replicate 4096 0xFF) ∧
    (r.pattern_type = "complement" →
      r.pattern = generate_complement_pattern 4096) ∧
    (∀ d, r.pattern_type = "pattern" → r.pattern_data = some d →
      r.pattern = bytesRepeat d (4096 / d.length)) ∧
    (∀ c ∈ r.chunks, ∃ k, c.2 = r.pattern.take k) := by
  have h := multipassAux_trace_facts stop urandom readback deviceSize passes
    t rng vs r hr
  exact ⟨h.2.2.2.2.2.1, h.2.2.2.2.2.2.1, h.2.2.2.2.2.2.2.1,
    h.2.2.2.2.2.2.2.2.1, h.2.2.2.2.2.2.2.2.2,
    fun c hc => (h.2.2.1 c hc).2⟩

/-- Witness for C6's amended theorem: the concrete zeros pass wrote the
constant zero buffer. -/
theorem pass_pattern_shapes_witness :
    (mpDemo.trace.headD default ∈ mpDemo.trace) ∧
    (mpDemo.trace.headD default).pattern_type = "zeros" ∧
    (mpDemo.trace.headD default).pattern = List.replicate 4096 0x00 := by
  have hmem : mpDemo.trace.headD default ∈ mpDemo.trace := by
    rw [mpDemo_eval]
    exact List.mem_singleton.mpr rfl
  have hty : (mpDemo.trace.headD default).pattern_type = "zeros" := by
    rw [mpDemo_eval]
    rfl
  exact ⟨hmem, hty,
    (pass_pattern_shapes (fun _ => false) (fun _ => List.replicate 4096 7)
      (fun _ _ => []) 1 [⟨1, "Final Zero Pass", "zeros", none, true⟩] 0 0
      "pending" (mpDemo.trace.headD default) hmem).2.1 hty⟩

/-- C7: the code at the claim's failing input — no certificate is ever
emitted.  The module never imports base64, so the container literal at
line 471 raises NameError inside the try block even when the private key
loads and the RSA/SHA-256 signing call succeeds; the handler at line 485
swallows it.  The claimed emission of a record holding payload, signature
and algorithm therefore never happens on any input (and even the dead
container at lines 469-472 holds no algorithm key); shown universally and
at the concrete failing input (loadable key, filled form, fixed
timestamp). -/
theorem certificate_never_emitted :
    (∀ (env : SignEnv) (form : CertForm) (ts : String),
      generate_certificate env form ts = none) ∧
    generate_certificate signEnvDemo certFormDemo tsDemo = none := by
  refine ⟨?_, rfl⟩
  intro env form ts
  simp [generate_certificate]

/-- Counterexample to C8 as stated: the malformed size string "500X"
(unknown suffix) is not mapped to 0 — the parser falls back to multiplier
1 and returns 500. -/
theorem parse_size_unknown_suffix_counterexample :
    parse_size "500X" = 500 ∧ parse_size "500X" ≠ 0 := by
  refine ⟨by decide, ?_⟩
  decide

/-- C8 amended: size parsing maps "500G" to 500·1024³ and "1T" to 1024⁴,
recognizes the binary-unit suffixes B/K/M/G/T/P (with KB/KIB-style
variants, case-insensitively, with surrounding whitespace), maps input
whose numeric part is missing or malformed to 0, but maps a parseable
number with an unrecognized suffix to the bare number (multiplier 1), not
to 0. -/
theorem parse_size_behavior :
    parse_size "500G" = 500 * 1024 ^ 3 ∧
    parse_size "1T" = 1024 ^ 4 ∧
    parse_size "500B" = 500 ∧
    parse_size "2K" = 2 * 1024 ∧
    parse_size "3M" = 3 * 1024 ^ 2 ∧
    parse_size "4P" = 4 * 1024 ^ 5 ∧
    parse_size " 2 GiB " = 2 * 1024 ^ 3 ∧
    parse_size "1.5K" = 1536 ∧
    parse_size "" = 0 ∧
    parse_size "0" = 0 ∧
    parse_size "ABC" = 0 ∧
    parse_size "1.2.3G" = 0 ∧
    parse_size "." = 0 ∧
    parse_size "500X" = 500 := by
  decide

/-- C9: every device returned by the detection scan is at least 1 MiB,
carries none of the loopback/RAM-disk/device-mapper/optical name markers,
and is marked `Protected (Root FS)` whenever one of its mount points is
the filesystem root. -/
theorem detect_all_devices_filtered :
    ∀ (ds : List DeviceRec) (d : DeviceRec),
      d ∈ detect_all_devices ds →
      1024 * 1024 ≤ d.size_bytes ∧
      (∀ m ∈ skip_markers, containsSub d.name m = false) ∧
      ("/" ∈ d.mount_points → d.wipe_status = "Protected (Root FS)") := by
  intro ds
  induction ds with
  | nil =>
    intro d hd
    simp [detect_all_devices, filter_devices] at hd
  | cons x xs ih =>
    intro d hd
    simp only [detect_all_devices, filter_devices] at hd ih
    split at hd
    · exact ih d hd
    next hsize =>
      split at hd
      · exact ih d hd
      next hmark =>
        rcases List.mem_cons.mp hd with heq | htl
        · cases hmp : x.mount_points.any (fun m => m = "/") with
          | true =>
            rw [hmp] at heq
            simp only [if_true] at heq
            subst heq
            refine ⟨by simpa using Nat.le_of_not_lt hsize, ?_, ?_⟩
            · intro m hm
              rcases Bool.eq_false_or_eq_true (containsSub x.name m) with
                ht | hf
              · exact absurd (List.any_eq_true.mpr ⟨m, hm, ht⟩) hmark
              · exact hf
            · intro _
              rfl
          | false =>
            rw [hmp] at heq
            simp only [Bool.false_eq_true, if_false] at heq
            subst heq
            refine ⟨Nat.le_of_not_lt hsize, ?_, ?_⟩
            · intro m hm
              rcases Bool.eq_false_or_eq_true (containsSub d.name m) with
                ht | hf
              · exact absurd (List.any_eq_true.mpr ⟨m, hm, ht⟩) hmark
              · exact hf
            · intro hmem
              have hany : (d.mount_points.any fun m => decide (m = "/"))
                  = true := List.any_eq_true.mpr ⟨"/", hmem, by decide⟩
              rw [hany] at hmp
              simp at hmp
        · exact ih d htl

/-- Witness for C9: a concrete detected 1-GiB root disk is returned and
marked Protected. -/
theorem detect_all_devices_filtered_witness :
    devProtectedDemo ∈ detect_all_devices devListDemo ∧
    devProtectedDemo.wipe_status = "Protected (Root FS)" := by
  have hmem : devProtectedDemo ∈ detect_all_devices devListDemo := by decide
  exact ⟨hmem,
    (detect_all_devices_filtered devListDemo devProtectedDemo hmem).2.2
      (by decide)⟩

/-- C10: the engine's wipe entry point never consults its
confirmation-token argument — any two calls differing only in the token
behave identically — while the command-line wrapper's gate does check the
token (and waives it under dry-run). -/
theorem wipe_device_ignores_confirm_token :
    (∀ (env : WipeEnv) (method : SanitizationMethod) (dry_run : Bool)
        (t1 t2 : String),
      wipe_device env method t1 dry_run = wipe_device env method t2 dry_run) ∧
    main_token_gate "/dev/sdb" "OBLITERATE-SDB" false = true ∧
    main_token_gate "/dev/sdb" "WRONG" false = false ∧
    main_token_gate "/dev/sdb" "WRONG" true = true := by
  refine ⟨fun env method dry t1 t2 => rfl, ?_, ?_, ?_⟩ <;> decide

end Obliterator
